import Mathlib

/-!
Shallow embedding of the generic vector/normal algebraic core of the
`cgmath` fork under verification (src/vector.rs, src/normal.rs,
src/macros.rs, src/lib.rs, src/ray.rs).

Modelling conventions:
* The eight fixed-arity compound types (`Vector1`..`Vector4`,
  `Normal1`..`Normal4`) are Lean structures with the same field names and
  declared field order as the Rust structs (`x`, `y`, `z`, `w`).
* The structs are `#[repr(C)]`, so the `as_ref`/`as_mut` transmutes to
  `[S; n]` view the fields in declared order; we model that fixed-array
  view as the list `[x, y, z, w]` (`arrayView`).
* Fallible operations (panicking slice indexing, `Option::unwrap` inside
  `cast`) are modelled with `Option`: `none` is a panic / failed cast.
* Scalar types are kept generic: arithmetic operations take the exact
  instance they need (`Add`, `Sub`, `Mul`, `Div`, `Mod`), mirroring the
  Rust trait bounds; commutative-ring instances are used only in theorems
  that need algebraic laws.
-/

namespace Cgmath

/-- A 1-dimensional vector (src/vector.rs, struct `Vector1`). -/
structure Vector1 (S : Type) where
  x : S
deriving DecidableEq

/-- A 2-dimensional vector (src/vector.rs, struct `Vector2`). -/
structure Vector2 (S : Type) where
  x : S
  y : S
deriving DecidableEq

/-- A 3-dimensional vector (src/vector.rs, struct `Vector3`). -/
structure Vector3 (S : Type) where
  x : S
  y : S
  z : S
deriving DecidableEq

/-- A 4-dimensional vector (src/vector.rs, struct `Vector4`). -/
structure Vector4 (S : Type) where
  x : S
  y : S
  z : S
  w : S
deriving DecidableEq

/-- A 1-dimensional surface normal (src/normal.rs, struct `Normal1`). -/
structure Normal1 (S : Type) where
  x : S
deriving DecidableEq

/-- A 2-dimensional surface normal (src/normal.rs, struct `Normal2`). -/
structure Normal2 (S : Type) where
  x : S
  y : S
deriving DecidableEq

/-- A 3-dimensional surface normal (src/normal.rs, struct `Normal3`). -/
structure Normal3 (S : Type) where
  x : S
  y : S
  z : S
deriving DecidableEq

/-- A 4-dimensional surface normal (src/normal.rs, struct `Normal4`). -/
structure Normal4 (S : Type) where
  x : S
  y : S
  z : S
  w : S
deriving DecidableEq

/-- Rust impl `CrossProduct for Vector3` (src/vector.rs lines 245-254):
componentwise `(y1*z2 - z1*y2, z1*x2 - x1*z2, x1*y2 - y1*x2)`. -/
def Vector3.cross {S : Type} [Mul S] [Sub S] (a b : Vector3 S) : Vector3 S :=
  ⟨(a.y * b.z) - (a.z * b.y), (a.z * b.x) - (a.x * b.z), (a.x * b.y) - (a.y * b.x)⟩

/-- Inherent method `Normal3::cross` (src/normal.rs lines 171-178): takes a
`Normal3` argument and returns a `Normal3`. -/
def Normal3.cross {S : Type} [Mul S] [Sub S] (a b : Normal3 S) : Normal3 S :=
  ⟨(a.y * b.z) - (a.z * b.y), (a.z * b.x) - (a.x * b.z), (a.x * b.y) - (a.y * b.x)⟩

/-- Rust impl `CrossProduct<Vector3<S>> for Normal3<S>` (src/lib.rs lines 109-118):
normal crossed with vector, output is a `Vector3`. -/
def Normal3.crossVec {S : Type} [Mul S] [Sub S] (a : Normal3 S) (b : Vector3 S) : Vector3 S :=
  ⟨(a.y * b.z) - (a.z * b.y), (a.z * b.x) - (a.x * b.z), (a.x * b.y) - (a.y * b.x)⟩

/-- Rust impl `CrossProduct<Normal3<S>> for Vector3<S>` (src/lib.rs lines 120-129):
vector crossed with normal, output is a `Vector3`. -/
def Vector3.crossNormal {S : Type} [Mul S] [Sub S] (a : Vector3 S) (b : Normal3 S) : Vector3 S :=
  ⟨(a.y * b.z) - (a.z * b.y), (a.z * b.x) - (a.x * b.z), (a.x * b.y) - (a.y * b.x)⟩

/-- Rust method `Array::from_value` for `Vector3` (src/macros.rs lines 310-312):
broadcast one scalar to all components. -/
def Vector3.from_value {S : Type} (s : S) : Vector3 S := ⟨s, s, s⟩

/-- Rust impl `Zero::zero` for `Vector3` (src/macros.rs lines 345-349):
`from_value(S::zero())`. -/
def Vector3.zero {S : Type} [Zero S] : Vector3 S := Vector3.from_value 0

/-- Rust impl `Neg for Vector3` (src/macros.rs lines 361-365): componentwise negation. -/
def Vector3.neg {S : Type} [Neg S] (v : Vector3 S) : Vector3 S := ⟨-v.x, -v.y, -v.z⟩

/-- Rust view `as_ref : &[S; 1]` of `Vector1` (src/macros.rs lines 152-157): the
`#[repr(C)]` struct reinterpreted as a fixed array in declared field order. -/
def Vector1.arrayView {S : Type} (v : Vector1 S) : List S := [v.x]

/-- Rust impl `Index<usize>` for `Vector1` (src/macros.rs lines 240-247): index the
`[S; 1]` view; `none` models the out-of-bounds panic. -/
def Vector1.index {S : Type} (v : Vector1 S) (i : Nat) : Option S := (Vector1.arrayView v)[i]?

/-- Rust impl `IndexMut<usize>` for `Vector1` (src/macros.rs lines 249-254): write
component `i` through the `[S; 1]` view; `none` models the out-of-bounds panic. -/
def Vector1.index_mut {S : Type} (v : Vector1 S) (i : Nat) (s : S) : Option (Vector1 S) :=
  match i with
  | 0 => some { v with x := s }
  | _ => none

/-- Rust impl `Index<RangeTo<usize>>` for `Vector1` (src/macros.rs lines 240-247,
492): the slice `v[..k]` of the `[S; 1]` view; `none` models the panic when
`k` exceeds the arity. -/
def Vector1.index_range_to {S : Type} (v : Vector1 S) (k : Nat) : Option (List S) :=
  if k ≤ 1 then some ((Vector1.arrayView v).take k) else none

/-- Rust impl `Index<RangeFrom<usize>>` for `Vector1` (src/macros.rs lines 240-247,
493): the slice `v[k..]` of the `[S; 1]` view; `none` models the panic when
`k` exceeds the arity. -/
def Vector1.index_range_from {S : Type} (v : Vector1 S) (k : Nat) : Option (List S) :=
  if k ≤ 1 then some ((Vector1.arrayView v).drop k) else none

/-- Rust impl `Into<[S; 1]>` for `Vector1` (src/macros.rs lines 145-150): fields in
declared order become the array entries. -/
def Vector1.into_array {S : Type} (v : Vector1 S) : S := v.x

/-- Rust impl `From<[S; 1]>` for `Vector1` (src/macros.rs lines 166-172): field `i`
is set to array entry `i`. -/
def Vector1.from_array {S : Type} (a : S) : Vector1 S := ⟨a⟩

/-- Rust impl `Into` of the homogeneous 1-tuple for `Vector1` (src/macros.rs lines
193-198): fields in declared order become the tuple entries. -/
def Vector1.into_tuple {S : Type} (v : Vector1 S) : S := v.x

/-- Rust impl `From` of the homogeneous 1-tuple for `Vector1` (src/macros.rs lines
214-219): pattern match the tuple into the fields. -/
def Vector1.from_tuple {S : Type} (a : S) : Vector1 S := ⟨a⟩

/-- Rust method `Vector1::cast` (src/macros.rs lines 289-295): per-component numeric
conversion `NumCast::from(self.$field).unwrap()`; the scalar conversion is the
abstract partial function `conv`, and `none` models the `unwrap` panic when a
component is not representable in the target type. -/
def Vector1.cast {S A : Type} (conv : S → Option A) (v : Vector1 S) : Option (Vector1 A) :=
  match conv v.x with
  | some a => some ⟨a⟩
  | _ => none

/-- Rust view `as_ref : &[S; 2]` of `Vector2` (src/macros.rs lines 152-157): the
`#[repr(C)]` struct reinterpreted as a fixed array in declared field order. -/
def Vector2.arrayView {S : Type} (v : Vector2 S) : List S := [v.x, v.y]

/-- Rust impl `Index<usize>` for `Vector2` (src/macros.rs lines 240-247): index the
`[S; 2]` view; `none` models the out-of-bounds panic. -/
def Vector2.index {S : Type} (v : Vector2 S) (i : Nat) : Option S := (Vector2.arrayView v)[i]?

/-- Rust impl `IndexMut<usize>` for `Vector2` (src/macros.rs lines 249-254): write
component `i` through the `[S; 2]` view; `none` models the out-of-bounds panic. -/
def Vector2.index_mut {S : Type} (v : Vector2 S) (i : Nat) (s : S) : Option (Vector2 S) :=
  match i with
  | 0 => some { v with x := s }
  | 1 => some { v with y := s }
  | _ => none

/-- Rust impl `Index<RangeTo<usize>>` for `Vector2` (src/macros.rs lines 240-247,
492): the slice `v[..k]` of the `[S; 2]` view; `none` models the panic when
`k` exceeds the arity. -/
def Vector2.index_range_to {S : Type} (v : Vector2 S) (k : Nat) : Option (List S) :=
  if k ≤ 2 then some ((Vector2.arrayView v).take k) else none

/-- Rust impl `Index<RangeFrom<usize>>` for `Vector2` (src/macros.rs lines 240-247,
493): the slice `v[k..]` of the `[S; 2]` view; `none` models the panic when
`k` exceeds the arity. -/
def Vector2.index_range_from {S : Type} (v : Vector2 S) (k : Nat) : Option (List S) :=
  if k ≤ 2 then some ((Vector2.arrayView v).drop k) else none

/-- Rust impl `Into<[S; 2]>` for `Vector2` (src/macros.rs lines 145-150): fields in
declared order become the array entries. -/
def Vector2.into_array {S : Type} (v : Vector2 S) : S × S := (v.x, v.y)

/-- Rust impl `From<[S; 2]>` for `Vector2` (src/macros.rs lines 166-172): field `i`
is set to array entry `i`. -/
def Vector2.from_array {S : Type} (a : S × S) : Vector2 S := ⟨a.1, a.2⟩

/-- Rust impl `Into` of the homogeneous 2-tuple for `Vector2` (src/macros.rs lines
193-198): fields in declared order become the tuple entries. -/
def Vector2.into_tuple {S : Type} (v : Vector2 S) : S × S := (v.x, v.y)

/-- Rust impl `From` of the homogeneous 2-tuple for `Vector2` (src/macros.rs lines
214-219): pattern match the tuple into the fields. -/
def Vector2.from_tuple {S : Type} (a : S × S) : Vector2 S := ⟨a.1, a.2⟩

/-- Rust method `Vector2::cast` (src/macros.rs lines 289-295): per-component numeric
conversion `NumCast::from(self.$field).unwrap()`; the scalar conversion is the
abstract partial function `conv`, and `none` models the `unwrap` panic when a
component is not representable in the target type. -/
def Vector2.cast {S A : Type} (conv : S → Option A) (v : Vector2 S) : Option (Vector2 A) :=
  match conv v.x, conv v.y with
  | some a, some b => some ⟨a, b⟩
  | _, _ => none

/-- Rust view `as_ref : &[S; 3]` of `Vector3` (src/macros.rs lines 152-157): the
`#[repr(C)]` struct reinterpreted as a fixed array in declared field order. -/
def Vector3.arrayView {S : Type} (v : Vector3 S) : List S := [v.x, v.y, v.z]

/-- Rust impl `Index<usize>` for `Vector3` (src/macros.rs lines 240-247): index the
`[S; 3]` view; `none` models the out-of-bounds panic. -/
def Vector3.index {S : Type} (v : Vector3 S) (i : Nat) : Option S := (Vector3.arrayView v)[i]?

/-- Rust impl `IndexMut<usize>` for `Vector3` (src/macros.rs lines 249-254): write
component `i` through the `[S; 3]` view; `none` models the out-of-bounds panic. -/
def Vector3.index_mut {S : Type} (v : Vector3 S) (i : Nat) (s : S) : Option (Vector3 S) :=
  match i with
  | 0 => some { v with x := s }
  | 1 => some { v with y := s }
  | 2 => some { v with z := s }
  | _ => none

/-- Rust impl `Index<RangeTo<usize>>` for `Vector3` (src/macros.rs lines 240-247,
492): the slice `v[..k]` of the `[S; 3]` view; `none` models the panic when
`k` exceeds the arity. -/
def Vector3.index_range_to {S : Type} (v : Vector3 S) (k : Nat) : Option (List S) :=
  if k ≤ 3 then some ((Vector3.arrayView v).take k) else none

/-- Rust impl `Index<RangeFrom<usize>>` for `Vector3` (src/macros.rs lines 240-247,
493): the slice `v[k..]` of the `[S; 3]` view; `none` models the panic when
`k` exceeds the arity. -/
def Vector3.index_range_from {S : Type} (v : Vector3 S) (k : Nat) : Option (List S) :=
  if k ≤ 3 then some ((Vector3.arrayView v).drop k) else none

/-- Rust impl `Into<[S; 3]>` for `Vector3` (src/macros.rs lines 145-150): fields in
declared order become the array entries. -/
def Vector3.into_array {S : Type} (v : Vector3 S) : S × S × S := (v.x, v.y, v.z)

/-- Rust impl `From<[S; 3]>` for `Vector3` (src/macros.rs lines 166-172): field `i`
is set to array entry `i`. -/
def Vector3.from_array {S : Type} (a : S × S × S) : Vector3 S := ⟨a.1, a.2.1, a.2.2⟩

/-- Rust impl `Into` of the homogeneous 3-tuple for `Vector3` (src/macros.rs lines
193-198): fields in declared order become the tuple entries. -/
def Vector3.into_tuple {S : Type} (v : Vector3 S) : S × S × S := (v.x, v.y, v.z)

/-- Rust impl `From` of the homogeneous 3-tuple for `Vector3` (src/macros.rs lines
214-219): pattern match the tuple into the fields. -/
def Vector3.from_tuple {S : Type} (a : S × S × S) : Vector3 S := ⟨a.1, a.2.1, a.2.2⟩

/-- Rust method `Vector3::cast` (src/macros.rs lines 289-295): per-component numeric
conversion `NumCast::from(self.$field).unwrap()`; the scalar conversion is the
abstract partial function `conv`, and `none` models the `unwrap` panic when a
component is not representable in the target type. -/
def Vector3.cast {S A : Type} (conv : S → Option A) (v : Vector3 S) : Option (Vector3 A) :=
  match conv v.x, conv v.y, conv v.z with
  | some a, some b, some c => some ⟨a, b, c⟩
  | _, _, _ => none

/-- Rust view `as_ref : &[S; 4]` of `Vector4` (src/macros.rs lines 152-157): the
`#[repr(C)]` struct reinterpreted as a fixed array in declared field order. -/
def Vector4.arrayView {S : Type} (v : Vector4 S) : List S := [v.x, v.y, v.z, v.w]

/-- Rust impl `Index<usize>` for `Vector4` (src/macros.rs lines 240-247): index the
`[S; 4]` view; `none` models the out-of-bounds panic. -/
def Vector4.index {S : Type} (v : Vector4 S) (i : Nat) : Option S := (Vector4.arrayView v)[i]?

/-- Rust impl `IndexMut<usize>` for `Vector4` (src/macros.rs lines 249-254): write
component `i` through the `[S; 4]` view; `none` models the out-of-bounds panic. -/
def Vector4.index_mut {S : Type} (v : Vector4 S) (i : Nat) (s : S) : Option (Vector4 S) :=
  match i with
  | 0 => some { v with x := s }
  | 1 => some { v with y := s }
  | 2 => some { v with z := s }
  | 3 => some { v with w := s }
  | _ => none

/-- Rust impl `Index<RangeTo<usize>>` for `Vector4` (src/macros.rs lines 240-247,
492): the slice `v[..k]` of the `[S; 4]` view; `none` models the panic when
`k` exceeds the arity. -/
def Vector4.index_range_to {S : Type} (v : Vector4 S) (k : Nat) : Option (List S) :=
  if k ≤ 4 then some ((Vector4.arrayView v).take k) else none

/-- Rust impl `Index<RangeFrom<usize>>` for `Vector4` (src/macros.rs lines 240-247,
493): the slice `v[k..]` of the `[S; 4]` view; `none` models the panic when
`k` exceeds the arity. -/
def Vector4.index_range_from {S : Type} (v : Vector4 S) (k : Nat) : Option (List S) :=
  if k ≤ 4 then some ((Vector4.arrayView v).drop k) else none

/-- Rust impl `Into<[S; 4]>` for `Vector4` (src/macros.rs lines 145-150): fields in
declared order become the array entries. -/
def Vector4.into_array {S : Type} (v : Vector4 S) : S × S × S × S := (v.x, v.y, v.z, v.w)

/-- Rust impl `From<[S; 4]>` for `Vector4` (src/macros.rs lines 166-172): field `i`
is set to array entry `i`. -/
def Vector4.from_array {S : Type} (a : S × S × S × S) : Vector4 S := ⟨a.1, a.2.1, a.2.2.1, a.2.2.2⟩

/-- Rust impl `Into` of the homogeneous 4-tuple for `Vector4` (src/macros.rs lines
193-198): fields in declared order become the tuple entries. -/
def Vector4.into_tuple {S : Type} (v : Vector4 S) : S × S × S × S := (v.x, v.y, v.z, v.w)

/-- Rust impl `From` of the homogeneous 4-tuple for `Vector4` (src/macros.rs lines
214-219): pattern match the tuple into the fields. -/
def Vector4.from_tuple {S : Type} (a : S × S × S × S) : Vector4 S := ⟨a.1, a.2.1, a.2.2.1, a.2.2.2⟩

/-- Rust method `Vector4::cast` (src/macros.rs lines 289-295): per-component numeric
conversion `NumCast::from(self.$field).unwrap()`; the scalar conversion is the
abstract partial function `conv`, and `none` models the `unwrap` panic when a
component is not representable in the target type. -/
def Vector4.cast {S A : Type} (conv : S → Option A) (v : Vector4 S) : Option (Vector4 A) :=
  match conv v.x, conv v.y, conv v.z, conv v.w with
  | some a, some b, some c, some d => some ⟨a, b, c, d⟩
  | _, _, _, _ => none

/-- Rust view `as_ref : &[S; 1]` of `Normal1` (src/macros.rs lines 152-157): the
`#[repr(C)]` struct reinterpreted as a fixed array in declared field order. -/
def Normal1.arrayView {S : Type} (v : Normal1 S) : List S := [v.x]

/-- Rust impl `Index<usize>` for `Normal1` (src/macros.rs lines 240-247): index the
`[S; 1]` view; `none` models the out-of-bounds panic. -/
def Normal1.index {S : Type} (v : Normal1 S) (i : Nat) : Option S := (Normal1.arrayView v)[i]?

/-- Rust impl `IndexMut<usize>` for `Normal1` (src/macros.rs lines 249-254): write
component `i` through the `[S; 1]` view; `none` models the out-of-bounds panic. -/
def Normal1.index_mut {S : Type} (v : Normal1 S) (i : Nat) (s : S) : Option (Normal1 S) :=
  match i with
  | 0 => some { v with x := s }
  | _ => none

/-- Rust impl `Index<RangeTo<usize>>` for `Normal1` (src/macros.rs lines 240-247,
492): the slice `v[..k]` of the `[S; 1]` view; `none` models the panic when
`k` exceeds the arity. -/
def Normal1.index_range_to {S : Type} (v : Normal1 S) (k : Nat) : Option (List S) :=
  if k ≤ 1 then some ((Normal1.arrayView v).take k) else none

/-- Rust impl `Index<RangeFrom<usize>>` for `Normal1` (src/macros.rs lines 240-247,
493): the slice `v[k..]` of the `[S; 1]` view; `none` models the panic when
`k` exceeds the arity. -/
def Normal1.index_range_from {S : Type} (v : Normal1 S) (k : Nat) : Option (List S) :=
  if k ≤ 1 then some ((Normal1.arrayView v).drop k) else none

/-- Rust impl `Into<[S; 1]>` for `Normal1` (src/macros.rs lines 145-150): fields in
declared order become the array entries. -/
def Normal1.into_array {S : Type} (v : Normal1 S) : S := v.x

/-- Rust impl `From<[S; 1]>` for `Normal1` (src/macros.rs lines 166-172): field `i`
is set to array entry `i`. -/
def Normal1.from_array {S : Type} (a : S) : Normal1 S := ⟨a⟩

/-- Rust impl `Into` of the homogeneous 1-tuple for `Normal1` (src/macros.rs lines
193-198): fields in declared order become the tuple entries. -/
def Normal1.into_tuple {S : Type} (v : Normal1 S) : S := v.x

/-- Rust impl `From` of the homogeneous 1-tuple for `Normal1` (src/macros.rs lines
214-219): pattern match the tuple into the fields. -/
def Normal1.from_tuple {S : Type} (a : S) : Normal1 S := ⟨a⟩

/-- Rust method `Normal1::cast` (src/macros.rs lines 289-295): per-component numeric
conversion `NumCast::from(self.$field).unwrap()`; the scalar conversion is the
abstract partial function `conv`, and `none` models the `unwrap` panic when a
component is not representable in the target type. -/
def Normal1.cast {S A : Type} (conv : S → Option A) (v : Normal1 S) : Option (Normal1 A) :=
  match conv v.x with
  | some a => some ⟨a⟩
  | _ => none

/-- Rust view `as_ref : &[S; 2]` of `Normal2` (src/macros.rs lines 152-157): the
`#[repr(C)]` struct reinterpreted as a fixed array in declared field order. -/
def Normal2.arrayView {S : Type} (v : Normal2 S) : List S := [v.x, v.y]

/-- Rust impl `Index<usize>` for `Normal2` (src/macros.rs lines 240-247): index the
`[S; 2]` view; `none` models the out-of-bounds panic. -/
def Normal2.index {S : Type} (v : Normal2 S) (i : Nat) : Option S := (Normal2.arrayView v)[i]?

/-- Rust impl `IndexMut<usize>` for `Normal2` (src/macros.rs lines 249-254): write
component `i` through the `[S; 2]` view; `none` models the out-of-bounds panic. -/
def Normal2.index_mut {S : Type} (v : Normal2 S) (i : Nat) (s : S) : Option (Normal2 S) :=
  match i with
  | 0 => some { v with x := s }
  | 1 => some { v with y := s }
  | _ => none

/-- Rust impl `Index<RangeTo<usize>>` for `Normal2` (src/macros.rs lines 240-247,
492): the slice `v[..k]` of the `[S; 2]` view; `none` models the panic when
`k` exceeds the arity. -/
def Normal2.index_range_to {S : Type} (v : Normal2 S) (k : Nat) : Option (List S) :=
  if k ≤ 2 then some ((Normal2.arrayView v).take k) else none

/-- Rust impl `Index<RangeFrom<usize>>` for `Normal2` (src/macros.rs lines 240-247,
493): the slice `v[k..]` of the `[S; 2]` view; `none` models the panic when
`k` exceeds the arity. -/
def Normal2.index_range_from {S : Type} (v : Normal2 S) (k : Nat) : Option (List S) :=
  if k ≤ 2 then some ((Normal2.arrayView v).drop k) else none

/-- Rust impl `Into<[S; 2]>` for `Normal2` (src/macros.rs lines 145-150): fields in
declared order become the array entries. -/
def Normal2.into_array {S : Type} (v : Normal2 S) : S × S := (v.x, v.y)

/-- Rust impl `From<[S; 2]>` for `Normal2` (src/macros.rs lines 166-172): field `i`
is set to array entry `i`. -/
def Normal2.from_array {S : Type} (a : S × S) : Normal2 S := ⟨a.1, a.2⟩

/-- Rust impl `Into` of the homogeneous 2-tuple for `Normal2` (src/macros.rs lines
193-198): fields in declared order become the tuple entries. -/
def Normal2.into_tuple {S : Type} (v : Normal2 S) : S × S := (v.x, v.y)

/-- Rust impl `From` of the homogeneous 2-tuple for `Normal2` (src/macros.rs lines
214-219): pattern match the tuple into the fields. -/
def Normal2.from_tuple {S : Type} (a : S × S) : Normal2 S := ⟨a.1, a.2⟩

/-- Rust method `Normal2::cast` (src/macros.rs lines 289-295): per-component numeric
conversion `NumCast::from(self.$field).unwrap()`; the scalar conversion is the
abstract partial function `conv`, and `none` models the `unwrap` panic when a
component is not representable in the target type. -/
def Normal2.cast {S A : Type} (conv : S → Option A) (v : Normal2 S) : Option (Normal2 A) :=
  match conv v.x, conv v.y with
  | some a, some b => some ⟨a, b⟩
  | _, _ => none

/-- Rust view `as_ref : &[S; 3]` of `Normal3` (src/macros.rs lines 152-157): the
`#[repr(C)]` struct reinterpreted as a fixed array in declared field order. -/
def Normal3.arrayView {S : Type} (v : Normal3 S) : List S := [v.x, v.y, v.z]

/-- Rust impl `Index<usize>` for `Normal3` (src/macros.rs lines 240-247): index the
`[S; 3]` view; `none` models the out-of-bounds panic. -/
def Normal3.index {S : Type} (v : Normal3 S) (i : Nat) : Option S := (Normal3.arrayView v)[i]?

/-- Rust impl `IndexMut<usize>` for `Normal3` (src/macros.rs lines 249-254): write
component `i` through the `[S; 3]` view; `none` models the out-of-bounds panic. -/
def Normal3.index_mut {S : Type} (v : Normal3 S) (i : Nat) (s : S) : Option (Normal3 S) :=
  match i with
  | 0 => some { v with x := s }
  | 1 => some { v with y := s }
  | 2 => some { v with z := s }
  | _ => none

/-- Rust impl `Index<RangeTo<usize>>` for `Normal3` (src/macros.rs lines 240-247,
492): the slice `v[..k]` of the `[S; 3]` view; `none` models the panic when
`k` exceeds the arity. -/
def Normal3.index_range_to {S : Type} (v : Normal3 S) (k : Nat) : Option (List S) :=
  if k ≤ 3 then some ((Normal3.arrayView v).take k) else none

/-- Rust impl `Index<RangeFrom<usize>>` for `Normal3` (src/macros.rs lines 240-247,
493): the slice `v[k..]` of the `[S; 3]` view; `none` models the panic when
`k` exceeds the arity. -/
def Normal3.index_range_from {S : Type} (v : Normal3 S) (k : Nat) : Option (List S) :=
  if k ≤ 3 then some ((Normal3.arrayView v).drop k) else none

/-- Rust impl `Into<[S; 3]>` for `Normal3` (src/macros.rs lines 145-150): fields in
declared order become the array entries. -/
def Normal3.into_array {S : Type} (v : Normal3 S) : S × S × S := (v.x, v.y, v.z)

/-- Rust impl `From<[S; 3]>` for `Normal3` (src/macros.rs lines 166-172): field `i`
is set to array entry `i`. -/
def Normal3.from_array {S : Type} (a : S × S × S) : Normal3 S := ⟨a.1, a.2.1, a.2.2⟩

/-- Rust impl `Into` of the homogeneous 3-tuple for `Normal3` (src/macros.rs lines
193-198): fields in declared order become the tuple entries. -/
def Normal3.into_tuple {S : Type} (v : Normal3 S) : S × S × S := (v.x, v.y, v.z)

/-- Rust impl `From` of the homogeneous 3-tuple for `Normal3` (src/macros.rs lines
214-219): pattern match the tuple into the fields. -/
def Normal3.from_tuple {S : Type} (a : S × S × S) : Normal3 S := ⟨a.1, a.2.1, a.2.2⟩

/-- Rust method `Normal3::cast` (src/macros.rs lines 289-295): per-component numeric
conversion `NumCast::from(self.$field).unwrap()`; the scalar conversion is the
abstract partial function `conv`, and `none` models the `unwrap` panic when a
component is not representable in the target type. -/
def Normal3.cast {S A : Type} (conv : S → Option A) (v : Normal3 S) : Option (Normal3 A) :=
  match conv v.x, conv v.y, conv v.z with
  | some a, some b, some c => some ⟨a, b, c⟩
  | _, _, _ => none

/-- Rust view `as_ref : &[S; 4]` of `Normal4` (src/macros.rs lines 152-157): the
`#[repr(C)]` struct reinterpreted as a fixed array in declared field order. -/
def Normal4.arrayView {S : Type} (v : Normal4 S) : List S := [v.x, v.y, v.z, v.w]

/-- Rust impl `Index<usize>` for `Normal4` (src/macros.rs lines 240-247): index the
`[S; 4]` view; `none` models the out-of-bounds panic. -/
def Normal4.index {S : Type} (v : Normal4 S) (i : Nat) : Option S := (Normal4.arrayView v)[i]?

/-- Rust impl `IndexMut<usize>` for `Normal4` (src/macros.rs lines 249-254): write
component `i` through the `[S; 4]` view; `none` models the out-of-bounds panic. -/
def Normal4.index_mut {S : Type} (v : Normal4 S) (i : Nat) (s : S) : Option (Normal4 S) :=
  match i with
  | 0 => some { v with x := s }
  | 1 => some { v with y := s }
  | 2 => some { v with z := s }
  | 3 => some { v with w := s }
  | _ => none

/-- Rust impl `Index<RangeTo<usize>>` for `Normal4` (src/macros.rs lines 240-247,
492): the slice `v[..k]` of the `[S; 4]` view; `none` models the panic when
`k` exceeds the arity. -/
def Normal4.index_range_to {S : Type} (v : Normal4 S) (k : Nat) : Option (List S) :=
  if k ≤ 4 then some ((Normal4.arrayView v).take k) else none

/-- Rust impl `Index<RangeFrom<usize>>` for `Normal4` (src/macros.rs lines 240-247,
493): the slice `v[k..]` of the `[S; 4]` view; `none` models the panic when
`k` exceeds the arity. -/
def Normal4.index_range_from {S : Type} (v : Normal4 S) (k : Nat) : Option (List S) :=
  if k ≤ 4 then some ((Normal4.arrayView v).drop k) else none

/-- Rust impl `Into<[S; 4]>` for `Normal4` (src/macros.rs lines 145-150): fields in
declared order become the array entries. -/
def Normal4.into_array {S : Type} (v : Normal4 S) : S × S × S × S := (v.x, v.y, v.z, v.w)

/-- Rust impl `From<[S; 4]>` for `Normal4` (src/macros.rs lines 166-172): field `i`
is set to array entry `i`. -/
def Normal4.from_array {S : Type} (a : S × S × S × S) : Normal4 S := ⟨a.1, a.2.1, a.2.2.1, a.2.2.2⟩

/-- Rust impl `Into` of the homogeneous 4-tuple for `Normal4` (src/macros.rs lines
193-198): fields in declared order become the tuple entries. -/
def Normal4.into_tuple {S : Type} (v : Normal4 S) : S × S × S × S := (v.x, v.y, v.z, v.w)

/-- Rust impl `From` of the homogeneous 4-tuple for `Normal4` (src/macros.rs lines
214-219): pattern match the tuple into the fields. -/
def Normal4.from_tuple {S : Type} (a : S × S × S × S) : Normal4 S := ⟨a.1, a.2.1, a.2.2.1, a.2.2.2⟩

/-- Rust method `Normal4::cast` (src/macros.rs lines 289-295): per-component numeric
conversion `NumCast::from(self.$field).unwrap()`; the scalar conversion is the
abstract partial function `conv`, and `none` models the `unwrap` panic when a
component is not representable in the target type. -/
def Normal4.cast {S A : Type} (conv : S → Option A) (v : Normal4 S) : Option (Normal4 A) :=
  match conv v.x, conv v.y, conv v.z, conv v.w with
  | some a, some b, some c, some d => some ⟨a, b, c, d⟩
  | _, _, _, _ => none

/-- Rust operator impl `Add` for `Vector1` (src/macros.rs lines 414-416):
componentwise `+` between two values of the same type. -/
def Vector1.add {S : Type} [Add S] (a b : Vector1 S) : Vector1 S := ⟨a.x + b.x⟩

/-- Rust impl `AddAssign` for `Vector1` (src/macros.rs lines 417-419): each field is
updated by `self.$field += other.$field`; the updated value is returned. -/
def Vector1.add_assign {S : Type} [Add S] (a b : Vector1 S) : Vector1 S := ⟨a.x + b.x⟩

/-- Rust operator impl `Sub` for `Vector1` (src/macros.rs lines 421-423):
componentwise `-` between two values of the same type. -/
def Vector1.sub {S : Type} [Sub S] (a b : Vector1 S) : Vector1 S := ⟨a.x - b.x⟩

/-- Rust impl `SubAssign` for `Vector1` (src/macros.rs lines 424-426): each field is
updated by `self.$field -= other.$field`; the updated value is returned. -/
def Vector1.sub_assign {S : Type} [Sub S] (a b : Vector1 S) : Vector1 S := ⟨a.x - b.x⟩

/-- Rust operator impl `Mul<S>` for `Vector1` (src/macros.rs lines 428-430):
componentwise `*` with a scalar on the right. -/
def Vector1.mul {S : Type} [Mul S] (v : Vector1 S) (s : S) : Vector1 S := ⟨v.x * s⟩

/-- Rust impl `MulAssign<S>` for `Vector1` (src/macros.rs lines 431-433): each field is
updated by `self.$field *= scalar`; the updated value is returned. -/
def Vector1.mul_assign {S : Type} [Mul S] (v : Vector1 S) (s : S) : Vector1 S := ⟨v.x * s⟩

/-- Rust operator impl `Div<S>` for `Vector1` (src/macros.rs lines 435-437):
componentwise `/` with a scalar on the right. -/
def Vector1.div {S : Type} [Div S] (v : Vector1 S) (s : S) : Vector1 S := ⟨v.x / s⟩

/-- Rust impl `DivAssign<S>` for `Vector1` (src/macros.rs lines 438-440): each field is
updated by `self.$field /= scalar`; the updated value is returned. -/
def Vector1.div_assign {S : Type} [Div S] (v : Vector1 S) (s : S) : Vector1 S := ⟨v.x / s⟩

/-- Rust operator impl `Rem<S>` for `Vector1` (src/macros.rs lines 442-444):
componentwise `%` with a scalar on the right. -/
def Vector1.rem {S : Type} [Mod S] (v : Vector1 S) (s : S) : Vector1 S := ⟨v.x % s⟩

/-- Rust impl `RemAssign<S>` for `Vector1` (src/macros.rs lines 445-447): each field is
updated by `self.$field %= scalar`; the updated value is returned. -/
def Vector1.rem_assign {S : Type} [Mod S] (v : Vector1 S) (s : S) : Vector1 S := ⟨v.x % s⟩

/-- Rust method `add_element_wise` of `ElementWise` for `Vector1` (src/macros.rs
lines 449-454): componentwise `+` between two same-shaped values. -/
def Vector1.add_element_wise {S : Type} [Add S] (a b : Vector1 S) : Vector1 S := ⟨a.x + b.x⟩

/-- Rust method `add_assign_element_wise` of `ElementWise` for `Vector1`
(src/macros.rs lines 456-460): each field is updated by
`self.$field += rhs.$field`; the updated value is returned. -/
def Vector1.add_assign_element_wise {S : Type} [Add S] (a b : Vector1 S) : Vector1 S := ⟨a.x + b.x⟩

/-- Rust method `sub_element_wise` of `ElementWise` for `Vector1` (src/macros.rs
lines 449-454): componentwise `-` between two same-shaped values. -/
def Vector1.sub_element_wise {S : Type} [Sub S] (a b : Vector1 S) : Vector1 S := ⟨a.x - b.x⟩

/-- Rust method `sub_assign_element_wise` of `ElementWise` for `Vector1`
(src/macros.rs lines 456-460): each field is updated by
`self.$field -= rhs.$field`; the updated value is returned. -/
def Vector1.sub_assign_element_wise {S : Type} [Sub S] (a b : Vector1 S) : Vector1 S := ⟨a.x - b.x⟩

/-- Rust method `mul_element_wise` of `ElementWise` for `Vector1` (src/macros.rs
lines 449-454): componentwise `*` between two same-shaped values. -/
def Vector1.mul_element_wise {S : Type} [Mul S] (a b : Vector1 S) : Vector1 S := ⟨a.x * b.x⟩

/-- Rust method `mul_assign_element_wise` of `ElementWise` for `Vector1`
(src/macros.rs lines 456-460): each field is updated by
`self.$field *= rhs.$field`; the updated value is returned. -/
def Vector1.mul_assign_element_wise {S : Type} [Mul S] (a b : Vector1 S) : Vector1 S := ⟨a.x * b.x⟩

/-- Rust method `div_element_wise` of `ElementWise` for `Vector1` (src/macros.rs
lines 449-454): componentwise `/` between two same-shaped values. -/
def Vector1.div_element_wise {S : Type} [Div S] (a b : Vector1 S) : Vector1 S := ⟨a.x / b.x⟩

/-- Rust method `div_assign_element_wise` of `ElementWise` for `Vector1`
(src/macros.rs lines 456-460): each field is updated by
`self.$field /= rhs.$field`; the updated value is returned. -/
def Vector1.div_assign_element_wise {S : Type} [Div S] (a b : Vector1 S) : Vector1 S := ⟨a.x / b.x⟩

/-- Rust method `rem_element_wise` of `ElementWise` for `Vector1` (src/macros.rs
lines 449-454): componentwise `%` between two same-shaped values. -/
def Vector1.rem_element_wise {S : Type} [Mod S] (a b : Vector1 S) : Vector1 S := ⟨a.x % b.x⟩

/-- Rust method `rem_assign_element_wise` of `ElementWise` for `Vector1`
(src/macros.rs lines 456-460): each field is updated by
`self.$field %= rhs.$field`; the updated value is returned. -/
def Vector1.rem_assign_element_wise {S : Type} [Mod S] (a b : Vector1 S) : Vector1 S := ⟨a.x % b.x⟩

/-- Rust method `Array::sum` for `Vector1` (src/macros.rs lines 315-317, 131-140):
the left-to-right `fold_array` of `add` over the fields in declared order. -/
def Vector1.sum {S : Type} [Add S] (v : Vector1 S) : S := v.x

/-- Rust impl `DotProduct` for `Vector1` (src/vector.rs):
`mul_element_wise(self, other).sum()`. -/
def Vector1.dot {S : Type} [Add S] [Mul S] (a b : Vector1 S) : S := (Vector1.mul_element_wise a b).sum

/-- Rust operator impl `Add` for `Vector2` (src/macros.rs lines 414-416):
componentwise `+` between two values of the same type. -/
def Vector2.add {S : Type} [Add S] (a b : Vector2 S) : Vector2 S := ⟨a.x + b.x, a.y + b.y⟩

/-- Rust impl `AddAssign` for `Vector2` (src/macros.rs lines 417-419): each field is
updated by `self.$field += other.$field`; the updated value is returned. -/
def Vector2.add_assign {S : Type} [Add S] (a b : Vector2 S) : Vector2 S := ⟨a.x + b.x, a.y + b.y⟩

/-- Rust operator impl `Sub` for `Vector2` (src/macros.rs lines 421-423):
componentwise `-` between two values of the same type. -/
def Vector2.sub {S : Type} [Sub S] (a b : Vector2 S) : Vector2 S := ⟨a.x - b.x, a.y - b.y⟩

/-- Rust impl `SubAssign` for `Vector2` (src/macros.rs lines 424-426): each field is
updated by `self.$field -= other.$field`; the updated value is returned. -/
def Vector2.sub_assign {S : Type} [Sub S] (a b : Vector2 S) : Vector2 S := ⟨a.x - b.x, a.y - b.y⟩

/-- Rust operator impl `Mul<S>` for `Vector2` (src/macros.rs lines 428-430):
componentwise `*` with a scalar on the right. -/
def Vector2.mul {S : Type} [Mul S] (v : Vector2 S) (s : S) : Vector2 S := ⟨v.x * s, v.y * s⟩

/-- Rust impl `MulAssign<S>` for `Vector2` (src/macros.rs lines 431-433): each field is
updated by `self.$field *= scalar`; the updated value is returned. -/
def Vector2.mul_assign {S : Type} [Mul S] (v : Vector2 S) (s : S) : Vector2 S := ⟨v.x * s, v.y * s⟩

/-- Rust operator impl `Div<S>` for `Vector2` (src/macros.rs lines 435-437):
componentwise `/` with a scalar on the right. -/
def Vector2.div {S : Type} [Div S] (v : Vector2 S) (s : S) : Vector2 S := ⟨v.x / s, v.y / s⟩

/-- Rust impl `DivAssign<S>` for `Vector2` (src/macros.rs lines 438-440): each field is
updated by `self.$field /= scalar`; the updated value is returned. -/
def Vector2.div_assign {S : Type} [Div S] (v : Vector2 S) (s : S) : Vector2 S := ⟨v.x / s, v.y / s⟩

/-- Rust operator impl `Rem<S>` for `Vector2` (src/macros.rs lines 442-444):
componentwise `%` with a scalar on the right. -/
def Vector2.rem {S : Type} [Mod S] (v : Vector2 S) (s : S) : Vector2 S := ⟨v.x % s, v.y % s⟩

/-- Rust impl `RemAssign<S>` for `Vector2` (src/macros.rs lines 445-447): each field is
updated by `self.$field %= scalar`; the updated value is returned. -/
def Vector2.rem_assign {S : Type} [Mod S] (v : Vector2 S) (s : S) : Vector2 S := ⟨v.x % s, v.y % s⟩

/-- Rust method `add_element_wise` of `ElementWise` for `Vector2` (src/macros.rs
lines 449-454): componentwise `+` between two same-shaped values. -/
def Vector2.add_element_wise {S : Type} [Add S] (a b : Vector2 S) : Vector2 S := ⟨a.x + b.x, a.y + b.y⟩

/-- Rust method `add_assign_element_wise` of `ElementWise` for `Vector2`
(src/macros.rs lines 456-460): each field is updated by
`self.$field += rhs.$field`; the updated value is returned. -/
def Vector2.add_assign_element_wise {S : Type} [Add S] (a b : Vector2 S) : Vector2 S := ⟨a.x + b.x, a.y + b.y⟩

/-- Rust method `sub_element_wise` of `ElementWise` for `Vector2` (src/macros.rs
lines 449-454): componentwise `-` between two same-shaped values. -/
def Vector2.sub_element_wise {S : Type} [Sub S] (a b : Vector2 S) : Vector2 S := ⟨a.x - b.x, a.y - b.y⟩

/-- Rust method `sub_assign_element_wise` of `ElementWise` for `Vector2`
(src/macros.rs lines 456-460): each field is updated by
`self.$field -= rhs.$field`; the updated value is returned. -/
def Vector2.sub_assign_element_wise {S : Type} [Sub S] (a b : Vector2 S) : Vector2 S := ⟨a.x - b.x, a.y - b.y⟩

/-- Rust method `mul_element_wise` of `ElementWise` for `Vector2` (src/macros.rs
lines 449-454): componentwise `*` between two same-shaped values. -/
def Vector2.mul_element_wise {S : Type} [Mul S] (a b : Vector2 S) : Vector2 S := ⟨a.x * b.x, a.y * b.y⟩

/-- Rust method `mul_assign_element_wise` of `ElementWise` for `Vector2`
(src/macros.rs lines 456-460): each field is updated by
`self.$field *= rhs.$field`; the updated value is returned. -/
def Vector2.mul_assign_element_wise {S : Type} [Mul S] (a b : Vector2 S) : Vector2 S := ⟨a.x * b.x, a.y * b.y⟩

/-- Rust method `div_element_wise` of `ElementWise` for `Vector2` (src/macros.rs
lines 449-454): componentwise `/` between two same-shaped values. -/
def Vector2.div_element_wise {S : Type} [Div S] (a b : Vector2 S) : Vector2 S := ⟨a.x / b.x, a.y / b.y⟩

/-- Rust method `div_assign_element_wise` of `ElementWise` for `Vector2`
(src/macros.rs lines 456-460): each field is updated by
`self.$field /= rhs.$field`; the updated value is returned. -/
def Vector2.div_assign_element_wise {S : Type} [Div S] (a b : Vector2 S) : Vector2 S := ⟨a.x / b.x, a.y / b.y⟩

/-- Rust method `rem_element_wise` of `ElementWise` for `Vector2` (src/macros.rs
lines 449-454): componentwise `%` between two same-shaped values. -/
def Vector2.rem_element_wise {S : Type} [Mod S] (a b : Vector2 S) : Vector2 S := ⟨a.x % b.x, a.y % b.y⟩

/-- Rust method `rem_assign_element_wise` of `ElementWise` for `Vector2`
(src/macros.rs lines 456-460): each field is updated by
`self.$field %= rhs.$field`; the updated value is returned. -/
def Vector2.rem_assign_element_wise {S : Type} [Mod S] (a b : Vector2 S) : Vector2 S := ⟨a.x % b.x, a.y % b.y⟩

/-- Rust method `Array::sum` for `Vector2` (src/macros.rs lines 315-317, 131-140):
the left-to-right `fold_array` of `add` over the fields in declared order. -/
def Vector2.sum {S : Type} [Add S] (v : Vector2 S) : S := v.x + v.y

/-- Rust impl `DotProduct` for `Vector2` (src/vector.rs):
`mul_element_wise(self, other).sum()`. -/
def Vector2.dot {S : Type} [Add S] [Mul S] (a b : Vector2 S) : S := (Vector2.mul_element_wise a b).sum

/-- Rust operator impl `Add` for `Vector3` (src/macros.rs lines 414-416):
componentwise `+` between two values of the same type. -/
def Vector3.add {S : Type} [Add S] (a b : Vector3 S) : Vector3 S := ⟨a.x + b.x, a.y + b.y, a.z + b.z⟩

/-- Rust impl `AddAssign` for `Vector3` (src/macros.rs lines 417-419): each field is
updated by `self.$field += other.$field`; the updated value is returned. -/
def Vector3.add_assign {S : Type} [Add S] (a b : Vector3 S) : Vector3 S := ⟨a.x + b.x, a.y + b.y, a.z + b.z⟩

/-- Rust operator impl `Sub` for `Vector3` (src/macros.rs lines 421-423):
componentwise `-` between two values of the same type. -/
def Vector3.sub {S : Type} [Sub S] (a b : Vector3 S) : Vector3 S := ⟨a.x - b.x, a.y - b.y, a.z - b.z⟩

/-- Rust impl `SubAssign` for `Vector3` (src/macros.rs lines 424-426): each field is
updated by `self.$field -= other.$field`; the updated value is returned. -/
def Vector3.sub_assign {S : Type} [Sub S] (a b : Vector3 S) : Vector3 S := ⟨a.x - b.x, a.y - b.y, a.z - b.z⟩

/-- Rust operator impl `Mul<S>` for `Vector3` (src/macros.rs lines 428-430):
componentwise `*` with a scalar on the right. -/
def Vector3.mul {S : Type} [Mul S] (v : Vector3 S) (s : S) : Vector3 S := ⟨v.x * s, v.y * s, v.z * s⟩

/-- Rust impl `MulAssign<S>` for `Vector3` (src/macros.rs lines 431-433): each field is
updated by `self.$field *= scalar`; the updated value is returned. -/
def Vector3.mul_assign {S : Type} [Mul S] (v : Vector3 S) (s : S) : Vector3 S := ⟨v.x * s, v.y * s, v.z * s⟩

/-- Rust operator impl `Div<S>` for `Vector3` (src/macros.rs lines 435-437):
componentwise `/` with a scalar on the right. -/
def Vector3.div {S : Type} [Div S] (v : Vector3 S) (s : S) : Vector3 S := ⟨v.x / s, v.y / s, v.z / s⟩

/-- Rust impl `DivAssign<S>` for `Vector3` (src/macros.rs lines 438-440): each field is
updated by `self.$field /= scalar`; the updated value is returned. -/
def Vector3.div_assign {S : Type} [Div S] (v : Vector3 S) (s : S) : Vector3 S := ⟨v.x / s, v.y / s, v.z / s⟩

/-- Rust operator impl `Rem<S>` for `Vector3` (src/macros.rs lines 442-444):
componentwise `%` with a scalar on the right. -/
def Vector3.rem {S : Type} [Mod S] (v : Vector3 S) (s : S) : Vector3 S := ⟨v.x % s, v.y % s, v.z % s⟩

/-- Rust impl `RemAssign<S>` for `Vector3` (src/macros.rs lines 445-447): each field is
updated by `self.$field %= scalar`; the updated value is returned. -/
def Vector3.rem_assign {S : Type} [Mod S] (v : Vector3 S) (s : S) : Vector3 S := ⟨v.x % s, v.y % s, v.z % s⟩

/-- Rust method `add_element_wise` of `ElementWise` for `Vector3` (src/macros.rs
lines 449-454): componentwise `+` between two same-shaped values. -/
def Vector3.add_element_wise {S : Type} [Add S] (a b : Vector3 S) : Vector3 S := ⟨a.x + b.x, a.y + b.y, a.z + b.z⟩

/-- Rust method `add_assign_element_wise` of `ElementWise` for `Vector3`
(src/macros.rs lines 456-460): each field is updated by
`self.$field += rhs.$field`; the updated value is returned. -/
def Vector3.add_assign_element_wise {S : Type} [Add S] (a b : Vector3 S) : Vector3 S := ⟨a.x + b.x, a.y + b.y, a.z + b.z⟩

/-- Rust method `sub_element_wise` of `ElementWise` for `Vector3` (src/macros.rs
lines 449-454): componentwise `-` between two same-shaped values. -/
def Vector3.sub_element_wise {S : Type} [Sub S] (a b : Vector3 S) : Vector3 S := ⟨a.x - b.x, a.y - b.y, a.z - b.z⟩

/-- Rust method `sub_assign_element_wise` of `ElementWise` for `Vector3`
(src/macros.rs lines 456-460): each field is updated by
`self.$field -= rhs.$field`; the updated value is returned. -/
def Vector3.sub_assign_element_wise {S : Type} [Sub S] (a b : Vector3 S) : Vector3 S := ⟨a.x - b.x, a.y - b.y, a.z - b.z⟩

/-- Rust method `mul_element_wise` of `ElementWise` for `Vector3` (src/macros.rs
lines 449-454): componentwise `*` between two same-shaped values. -/
def Vector3.mul_element_wise {S : Type} [Mul S] (a b : Vector3 S) : Vector3 S := ⟨a.x * b.x, a.y * b.y, a.z * b.z⟩

/-- Rust method `mul_assign_element_wise` of `ElementWise` for `Vector3`
(src/macros.rs lines 456-460): each field is updated by
`self.$field *= rhs.$field`; the updated value is returned. -/
def Vector3.mul_assign_element_wise {S : Type} [Mul S] (a b : Vector3 S) : Vector3 S := ⟨a.x * b.x, a.y * b.y, a.z * b.z⟩

/-- Rust method `div_element_wise` of `ElementWise` for `Vector3` (src/macros.rs
lines 449-454): componentwise `/` between two same-shaped values. -/
def Vector3.div_element_wise {S : Type} [Div S] (a b : Vector3 S) : Vector3 S := ⟨a.x / b.x, a.y / b.y, a.z / b.z⟩

/-- Rust method `div_assign_element_wise` of `ElementWise` for `Vector3`
(src/macros.rs lines 456-460): each field is updated by
`self.$field /= rhs.$field`; the updated value is returned. -/
def Vector3.div_assign_element_wise {S : Type} [Div S] (a b : Vector3 S) : Vector3 S := ⟨a.x / b.x, a.y / b.y, a.z / b.z⟩

/-- Rust method `rem_element_wise` of `ElementWise` for `Vector3` (src/macros.rs
lines 449-454): componentwise `%` between two same-shaped values. -/
def Vector3.rem_element_wise {S : Type} [Mod S] (a b : Vector3 S) : Vector3 S := ⟨a.x % b.x, a.y % b.y, a.z % b.z⟩

/-- Rust method `rem_assign_element_wise` of `ElementWise` for `Vector3`
(src/macros.rs lines 456-460): each field is updated by
`self.$field %= rhs.$field`; the updated value is returned. -/
def Vector3.rem_assign_element_wise {S : Type} [Mod S] (a b : Vector3 S) : Vector3 S := ⟨a.x % b.x, a.y % b.y, a.z % b.z⟩

/-- Rust method `Array::sum` for `Vector3` (src/macros.rs lines 315-317, 131-140):
the left-to-right `fold_array` of `add` over the fields in declared order. -/
def Vector3.sum {S : Type} [Add S] (v : Vector3 S) : S := v.x + v.y + v.z

/-- Rust impl `DotProduct` for `Vector3` (src/vector.rs):
`mul_element_wise(self, other).sum()`. -/
def Vector3.dot {S : Type} [Add S] [Mul S] (a b : Vector3 S) : S := (Vector3.mul_element_wise a b).sum

/-- Rust operator impl `Add` for `Vector4` (src/macros.rs lines 414-416):
componentwise `+` between two values of the same type. -/
def Vector4.add {S : Type} [Add S] (a b : Vector4 S) : Vector4 S := ⟨a.x + b.x, a.y + b.y, a.z + b.z, a.w + b.w⟩

/-- Rust impl `AddAssign` for `Vector4` (src/macros.rs lines 417-419): each field is
updated by `self.$field += other.$field`; the updated value is returned. -/
def Vector4.add_assign {S : Type} [Add S] (a b : Vector4 S) : Vector4 S := ⟨a.x + b.x, a.y + b.y, a.z + b.z, a.w + b.w⟩

/-- Rust operator impl `Sub` for `Vector4` (src/macros.rs lines 421-423):
componentwise `-` between two values of the same type. -/
def Vector4.sub {S : Type} [Sub S] (a b : Vector4 S) : Vector4 S := ⟨a.x - b.x, a.y - b.y, a.z - b.z, a.w - b.w⟩

/-- Rust impl `SubAssign` for `Vector4` (src/macros.rs lines 424-426): each field is
updated by `self.$field -= other.$field`; the updated value is returned. -/
def Vector4.sub_assign {S : Type} [Sub S] (a b : Vector4 S) : Vector4 S := ⟨a.x - b.x, a.y - b.y, a.z - b.z, a.w - b.w⟩

/-- Rust operator impl `Mul<S>` for `Vector4` (src/macros.rs lines 428-430):
componentwise `*` with a scalar on the right. -/
def Vector4.mul {S : Type} [Mul S] (v : Vector4 S) (s : S) : Vector4 S := ⟨v.x * s, v.y * s, v.z * s, v.w * s⟩

/-- Rust impl `MulAssign<S>` for `Vector4` (src/macros.rs lines 431-433): each field is
updated by `self.$field *= scalar`; the updated value is returned. -/
def Vector4.mul_assign {S : Type} [Mul S] (v : Vector4 S) (s : S) : Vector4 S := ⟨v.x * s, v.y * s, v.z * s, v.w * s⟩

/-- Rust operator impl `Div<S>` for `Vector4` (src/macros.rs lines 435-437):
componentwise `/` with a scalar on the right. -/
def Vector4.div {S : Type} [Div S] (v : Vector4 S) (s : S) : Vector4 S := ⟨v.x / s, v.y / s, v.z / s, v.w / s⟩

/-- Rust impl `DivAssign<S>` for `Vector4` (src/macros.rs lines 438-440): each field is
updated by `self.$field /= scalar`; the updated value is returned. -/
def Vector4.div_assign {S : Type} [Div S] (v : Vector4 S) (s : S) : Vector4 S := ⟨v.x / s, v.y / s, v.z / s, v.w / s⟩

/-- Rust operator impl `Rem<S>` for `Vector4` (src/macros.rs lines 442-444):
componentwise `%` with a scalar on the right. -/
def Vector4.rem {S : Type} [Mod S] (v : Vector4 S) (s : S) : Vector4 S := ⟨v.x % s, v.y % s, v.z % s, v.w % s⟩

/-- Rust impl `RemAssign<S>` for `Vector4` (src/macros.rs lines 445-447): each field is
updated by `self.$field %= scalar`; the updated value is returned. -/
def Vector4.rem_assign {S : Type} [Mod S] (v : Vector4 S) (s : S) : Vector4 S := ⟨v.x % s, v.y % s, v.z % s, v.w % s⟩

/-- Rust method `add_element_wise` of `ElementWise` for `Vector4` (src/macros.rs
lines 449-454): componentwise `+` between two same-shaped values. -/
def Vector4.add_element_wise {S : Type} [Add S] (a b : Vector4 S) : Vector4 S := ⟨a.x + b.x, a.y + b.y, a.z + b.z, a.w + b.w⟩

/-- Rust method `add_assign_element_wise` of `ElementWise` for `Vector4`
(src/macros.rs lines 456-460): each field is updated by
`self.$field += rhs.$field`; the updated value is returned. -/
def Vector4.add_assign_element_wise {S : Type} [Add S] (a b : Vector4 S) : Vector4 S := ⟨a.x + b.x, a.y + b.y, a.z + b.z, a.w + b.w⟩

/-- Rust method `sub_element_wise` of `ElementWise` for `Vector4` (src/macros.rs
lines 449-454): componentwise `-` between two same-shaped values. -/
def Vector4.sub_element_wise {S : Type} [Sub S] (a b : Vector4 S) : Vector4 S := ⟨a.x - b.x, a.y - b.y, a.z - b.z, a.w - b.w⟩

/-- Rust method `sub_assign_element_wise` of `ElementWise` for `Vector4`
(src/macros.rs lines 456-460): each field is updated by
`self.$field -= rhs.$field`; the updated value is returned. -/
def Vector4.sub_assign_element_wise {S : Type} [Sub S] (a b : Vector4 S) : Vector4 S := ⟨a.x - b.x, a.y - b.y, a.z - b.z, a.w - b.w⟩

/-- Rust method `mul_element_wise` of `ElementWise` for `Vector4` (src/macros.rs
lines 449-454): componentwise `*` between two same-shaped values. -/
def Vector4.mul_element_wise {S : Type} [Mul S] (a b : Vector4 S) : Vector4 S := ⟨a.x * b.x, a.y * b.y, a.z * b.z, a.w * b.w⟩

/-- Rust method `mul_assign_element_wise` of `ElementWise` for `Vector4`
(src/macros.rs lines 456-460): each field is updated by
`self.$field *= rhs.$field`; the updated value is returned. -/
def Vector4.mul_assign_element_wise {S : Type} [Mul S] (a b : Vector4 S) : Vector4 S := ⟨a.x * b.x, a.y * b.y, a.z * b.z, a.w * b.w⟩

/-- Rust method `div_element_wise` of `ElementWise` for `Vector4` (src/macros.rs
lines 449-454): componentwise `/` between two same-shaped values. -/
def Vector4.div_element_wise {S : Type} [Div S] (a b : Vector4 S) : Vector4 S := ⟨a.x / b.x, a.y / b.y, a.z / b.z, a.w / b.w⟩

/-- Rust method `div_assign_element_wise` of `ElementWise` for `Vector4`
(src/macros.rs lines 456-460): each field is updated by
`self.$field /= rhs.$field`; the updated value is returned. -/
def Vector4.div_assign_element_wise {S : Type} [Div S] (a b : Vector4 S) : Vector4 S := ⟨a.x / b.x, a.y / b.y, a.z / b.z, a.w / b.w⟩

/-- Rust method `rem_element_wise` of `ElementWise` for `Vector4` (src/macros.rs
lines 449-454): componentwise `%` between two same-shaped values. -/
def Vector4.rem_element_wise {S : Type} [Mod S] (a b : Vector4 S) : Vector4 S := ⟨a.x % b.x, a.y % b.y, a.z % b.z, a.w % b.w⟩

/-- Rust method `rem_assign_element_wise` of `ElementWise` for `Vector4`
(src/macros.rs lines 456-460): each field is updated by
`self.$field %= rhs.$field`; the updated value is returned. -/
def Vector4.rem_assign_element_wise {S : Type} [Mod S] (a b : Vector4 S) : Vector4 S := ⟨a.x % b.x, a.y % b.y, a.z % b.z, a.w % b.w⟩

/-- Rust method `Array::sum` for `Vector4` (src/macros.rs lines 315-317, 131-140):
the left-to-right `fold_array` of `add` over the fields in declared order. -/
def Vector4.sum {S : Type} [Add S] (v : Vector4 S) : S := v.x + v.y + v.z + v.w

/-- Rust impl `DotProduct` for `Vector4` (src/vector.rs):
`mul_element_wise(self, other).sum()`. -/
def Vector4.dot {S : Type} [Add S] [Mul S] (a b : Vector4 S) : S := (Vector4.mul_element_wise a b).sum

/-- Rust operator impl `Add` for `Normal1` (src/macros.rs lines 414-416):
componentwise `+` between two values of the same type. -/
def Normal1.add {S : Type} [Add S] (a b : Normal1 S) : Normal1 S := ⟨a.x + b.x⟩

/-- Rust impl `AddAssign` for `Normal1` (src/macros.rs lines 417-419): each field is
updated by `self.$field += other.$field`; the updated value is returned. -/
def Normal1.add_assign {S : Type} [Add S] (a b : Normal1 S) : Normal1 S := ⟨a.x + b.x⟩

/-- Rust operator impl `Sub` for `Normal1` (src/macros.rs lines 421-423):
componentwise `-` between two values of the same type. -/
def Normal1.sub {S : Type} [Sub S] (a b : Normal1 S) : Normal1 S := ⟨a.x - b.x⟩

/-- Rust impl `SubAssign` for `Normal1` (src/macros.rs lines 424-426): each field is
updated by `self.$field -= other.$field`; the updated value is returned. -/
def Normal1.sub_assign {S : Type} [Sub S] (a b : Normal1 S) : Normal1 S := ⟨a.x - b.x⟩

/-- Rust operator impl `Mul<S>` for `Normal1` (src/macros.rs lines 428-430):
componentwise `*` with a scalar on the right. -/
def Normal1.mul {S : Type} [Mul S] (v : Normal1 S) (s : S) : Normal1 S := ⟨v.x * s⟩

/-- Rust impl `MulAssign<S>` for `Normal1` (src/macros.rs lines 431-433): each field is
updated by `self.$field *= scalar`; the updated value is returned. -/
def Normal1.mul_assign {S : Type} [Mul S] (v : Normal1 S) (s : S) : Normal1 S := ⟨v.x * s⟩

/-- Rust operator impl `Div<S>` for `Normal1` (src/macros.rs lines 435-437):
componentwise `/` with a scalar on the right. -/
def Normal1.div {S : Type} [Div S] (v : Normal1 S) (s : S) : Normal1 S := ⟨v.x / s⟩

/-- Rust impl `DivAssign<S>` for `Normal1` (src/macros.rs lines 438-440): each field is
updated by `self.$field /= scalar`; the updated value is returned. -/
def Normal1.div_assign {S : Type} [Div S] (v : Normal1 S) (s : S) : Normal1 S := ⟨v.x / s⟩

/-- Rust operator impl `Rem<S>` for `Normal1` (src/macros.rs lines 442-444):
componentwise `%` with a scalar on the right. -/
def Normal1.rem {S : Type} [Mod S] (v : Normal1 S) (s : S) : Normal1 S := ⟨v.x % s⟩

/-- Rust impl `RemAssign<S>` for `Normal1` (src/macros.rs lines 445-447): each field is
updated by `self.$field %= scalar`; the updated value is returned. -/
def Normal1.rem_assign {S : Type} [Mod S] (v : Normal1 S) (s : S) : Normal1 S := ⟨v.x % s⟩

/-- Rust method `add_element_wise` of `ElementWise` for `Normal1` (src/macros.rs
lines 449-454): componentwise `+` between two same-shaped values. -/
def Normal1.add_element_wise {S : Type} [Add S] (a b : Normal1 S) : Normal1 S := ⟨a.x + b.x⟩

/-- Rust method `add_assign_element_wise` of `ElementWise` for `Normal1`
(src/macros.rs lines 456-460): each field is updated by
`self.$field += rhs.$field`; the updated value is returned. -/
def Normal1.add_assign_element_wise {S : Type} [Add S] (a b : Normal1 S) : Normal1 S := ⟨a.x + b.x⟩

/-- Rust method `sub_element_wise` of `ElementWise` for `Normal1` (src/macros.rs
lines 449-454): componentwise `-` between two same-shaped values. -/
def Normal1.sub_element_wise {S : Type} [Sub S] (a b : Normal1 S) : Normal1 S := ⟨a.x - b.x⟩

/-- Rust method `sub_assign_element_wise` of `ElementWise` for `Normal1`
(src/macros.rs lines 456-460): each field is updated by
`self.$field -= rhs.$field`; the updated value is returned. -/
def Normal1.sub_assign_element_wise {S : Type} [Sub S] (a b : Normal1 S) : Normal1 S := ⟨a.x - b.x⟩

/-- Rust method `mul_element_wise` of `ElementWise` for `Normal1` (src/macros.rs
lines 449-454): componentwise `*` between two same-shaped values. -/
def Normal1.mul_element_wise {S : Type} [Mul S] (a b : Normal1 S) : Normal1 S := ⟨a.x * b.x⟩

/-- Rust method `mul_assign_element_wise` of `ElementWise` for `Normal1`
(src/macros.rs lines 456-460): each field is updated by
`self.$field *= rhs.$field`; the updated value is returned. -/
def Normal1.mul_assign_element_wise {S : Type} [Mul S] (a b : Normal1 S) : Normal1 S := ⟨a.x * b.x⟩

/-- Rust method `div_element_wise` of `ElementWise` for `Normal1` (src/macros.rs
lines 449-454): componentwise `/` between two same-shaped values. -/
def Normal1.div_element_wise {S : Type} [Div S] (a b : Normal1 S) : Normal1 S := ⟨a.x / b.x⟩

/-- Rust method `div_assign_element_wise` of `ElementWise` for `Normal1`
(src/macros.rs lines 456-460): each field is updated by
`self.$field /= rhs.$field`; the updated value is returned. -/
def Normal1.div_assign_element_wise {S : Type} [Div S] (a b : Normal1 S) : Normal1 S := ⟨a.x / b.x⟩

/-- Rust method `rem_element_wise` of `ElementWise` for `Normal1` (src/macros.rs
lines 449-454): componentwise `%` between two same-shaped values. -/
def Normal1.rem_element_wise {S : Type} [Mod S] (a b : Normal1 S) : Normal1 S := ⟨a.x % b.x⟩

/-- Rust method `rem_assign_element_wise` of `ElementWise` for `Normal1`
(src/macros.rs lines 456-460): each field is updated by
`self.$field %= rhs.$field`; the updated value is returned. -/
def Normal1.rem_assign_element_wise {S : Type} [Mod S] (a b : Normal1 S) : Normal1 S := ⟨a.x % b.x⟩

/-- Rust method `Array::sum` for `Normal1` (src/macros.rs lines 315-317, 131-140):
the left-to-right `fold_array` of `add` over the fields in declared order. -/
def Normal1.sum {S : Type} [Add S] (v : Normal1 S) : S := v.x

/-- Rust impl `DotProduct` for `Normal1` (src/normal.rs):
`mul_element_wise(self, other).sum()`. -/
def Normal1.dot {S : Type} [Add S] [Mul S] (a b : Normal1 S) : S := (Normal1.mul_element_wise a b).sum

/-- Rust operator impl `Add` for `Normal2` (src/macros.rs lines 414-416):
componentwise `+` between two values of the same type. -/
def Normal2.add {S : Type} [Add S] (a b : Normal2 S) : Normal2 S := ⟨a.x + b.x, a.y + b.y⟩

/-- Rust impl `AddAssign` for `Normal2` (src/macros.rs lines 417-419): each field is
updated by `self.$field += other.$field`; the updated value is returned. -/
def Normal2.add_assign {S : Type} [Add S] (a b : Normal2 S) : Normal2 S := ⟨a.x + b.x, a.y + b.y⟩

/-- Rust operator impl `Sub` for `Normal2` (src/macros.rs lines 421-423):
componentwise `-` between two values of the same type. -/
def Normal2.sub {S : Type} [Sub S] (a b : Normal2 S) : Normal2 S := ⟨a.x - b.x, a.y - b.y⟩

/-- Rust impl `SubAssign` for `Normal2` (src/macros.rs lines 424-426): each field is
updated by `self.$field -= other.$field`; the updated value is returned. -/
def Normal2.sub_assign {S : Type} [Sub S] (a b : Normal2 S) : Normal2 S := ⟨a.x - b.x, a.y - b.y⟩

/-- Rust operator impl `Mul<S>` for `Normal2` (src/macros.rs lines 428-430):
componentwise `*` with a scalar on the right. -/
def Normal2.mul {S : Type} [Mul S] (v : Normal2 S) (s : S) : Normal2 S := ⟨v.x * s, v.y * s⟩

/-- Rust impl `MulAssign<S>` for `Normal2` (src/macros.rs lines 431-433): each field is
updated by `self.$field *= scalar`; the updated value is returned. -/
def Normal2.mul_assign {S : Type} [Mul S] (v : Normal2 S) (s : S) : Normal2 S := ⟨v.x * s, v.y * s⟩

/-- Rust operator impl `Div<S>` for `Normal2` (src/macros.rs lines 435-437):
componentwise `/` with a scalar on the right. -/
def Normal2.div {S : Type} [Div S] (v : Normal2 S) (s : S) : Normal2 S := ⟨v.x / s, v.y / s⟩

/-- Rust impl `DivAssign<S>` for `Normal2` (src/macros.rs lines 438-440): each field is
updated by `self.$field /= scalar`; the updated value is returned. -/
def Normal2.div_assign {S : Type} [Div S] (v : Normal2 S) (s : S) : Normal2 S := ⟨v.x / s, v.y / s⟩

/-- Rust operator impl `Rem<S>` for `Normal2` (src/macros.rs lines 442-444):
componentwise `%` with a scalar on the right. -/
def Normal2.rem {S : Type} [Mod S] (v : Normal2 S) (s : S) : Normal2 S := ⟨v.x % s, v.y % s⟩

/-- Rust impl `RemAssign<S>` for `Normal2` (src/macros.rs lines 445-447): each field is
updated by `self.$field %= scalar`; the updated value is returned. -/
def Normal2.rem_assign {S : Type} [Mod S] (v : Normal2 S) (s : S) : Normal2 S := ⟨v.x % s, v.y % s⟩

/-- Rust method `add_element_wise` of `ElementWise` for `Normal2` (src/macros.rs
lines 449-454): componentwise `+` between two same-shaped values. -/
def Normal2.add_element_wise {S : Type} [Add S] (a b : Normal2 S) : Normal2 S := ⟨a.x + b.x, a.y + b.y⟩

/-- Rust method `add_assign_element_wise` of `ElementWise` for `Normal2`
(src/macros.rs lines 456-460): each field is updated by
`self.$field += rhs.$field`; the updated value is returned. -/
def Normal2.add_assign_element_wise {S : Type} [Add S] (a b : Normal2 S) : Normal2 S := ⟨a.x + b.x, a.y + b.y⟩

/-- Rust method `sub_element_wise` of `ElementWise` for `Normal2` (src/macros.rs
lines 449-454): componentwise `-` between two same-shaped values. -/
def Normal2.sub_element_wise {S : Type} [Sub S] (a b : Normal2 S) : Normal2 S := ⟨a.x - b.x, a.y - b.y⟩

/-- Rust method `sub_assign_element_wise` of `ElementWise` for `Normal2`
(src/macros.rs lines 456-460): each field is updated by
`self.$field -= rhs.$field`; the updated value is returned. -/
def Normal2.sub_assign_element_wise {S : Type} [Sub S] (a b : Normal2 S) : Normal2 S := ⟨a.x - b.x, a.y - b.y⟩

/-- Rust method `mul_element_wise` of `ElementWise` for `Normal2` (src/macros.rs
lines 449-454): componentwise `*` between two same-shaped values. -/
def Normal2.mul_element_wise {S : Type} [Mul S] (a b : Normal2 S) : Normal2 S := ⟨a.x * b.x, a.y * b.y⟩

/-- Rust method `mul_assign_element_wise` of `ElementWise` for `Normal2`
(src/macros.rs lines 456-460): each field is updated by
`self.$field *= rhs.$field`; the updated value is returned. -/
def Normal2.mul_assign_element_wise {S : Type} [Mul S] (a b : Normal2 S) : Normal2 S := ⟨a.x * b.x, a.y * b.y⟩

/-- Rust method `div_element_wise` of `ElementWise` for `Normal2` (src/macros.rs
lines 449-454): componentwise `/` between two same-shaped values. -/
def Normal2.div_element_wise {S : Type} [Div S] (a b : Normal2 S) : Normal2 S := ⟨a.x / b.x, a.y / b.y⟩

/-- Rust method `div_assign_element_wise` of `ElementWise` for `Normal2`
(src/macros.rs lines 456-460): each field is updated by
`self.$field /= rhs.$field`; the updated value is returned. -/
def Normal2.div_assign_element_wise {S : Type} [Div S] (a b : Normal2 S) : Normal2 S := ⟨a.x / b.x, a.y / b.y⟩

/-- Rust method `rem_element_wise` of `ElementWise` for `Normal2` (src/macros.rs
lines 449-454): componentwise `%` between two same-shaped values. -/
def Normal2.rem_element_wise {S : Type} [Mod S] (a b : Normal2 S) : Normal2 S := ⟨a.x % b.x, a.y % b.y⟩

/-- Rust method `rem_assign_element_wise` of `ElementWise` for `Normal2`
(src/macros.rs lines 456-460): each field is updated by
`self.$field %= rhs.$field`; the updated value is returned. -/
def Normal2.rem_assign_element_wise {S : Type} [Mod S] (a b : Normal2 S) : Normal2 S := ⟨a.x % b.x, a.y % b.y⟩

/-- Rust method `Array::sum` for `Normal2` (src/macros.rs lines 315-317, 131-140):
the left-to-right `fold_array` of `add` over the fields in declared order. -/
def Normal2.sum {S : Type} [Add S] (v : Normal2 S) : S := v.x + v.y

/-- Rust impl `DotProduct` for `Normal2` (src/normal.rs):
`mul_element_wise(self, other).sum()`. -/
def Normal2.dot {S : Type} [Add S] [Mul S] (a b : Normal2 S) : S := (Normal2.mul_element_wise a b).sum

/-- Rust operator impl `Add` for `Normal3` (src/macros.rs lines 414-416):
componentwise `+` between two values of the same type. -/
def Normal3.add {S : Type} [Add S] (a b : Normal3 S) : Normal3 S := ⟨a.x + b.x, a.y + b.y, a.z + b.z⟩

/-- Rust impl `AddAssign` for `Normal3` (src/macros.rs lines 417-419): each field is
updated by `self.$field += other.$field`; the updated value is returned. -/
def Normal3.add_assign {S : Type} [Add S] (a b : Normal3 S) : Normal3 S := ⟨a.x + b.x, a.y + b.y, a.z + b.z⟩

/-- Rust operator impl `Sub` for `Normal3` (src/macros.rs lines 421-423):
componentwise `-` between two values of the same type. -/
def Normal3.sub {S : Type} [Sub S] (a b : Normal3 S) : Normal3 S := ⟨a.x - b.x, a.y - b.y, a.z - b.z⟩

/-- Rust impl `SubAssign` for `Normal3` (src/macros.rs lines 424-426): each field is
updated by `self.$field -= other.$field`; the updated value is returned. -/
def Normal3.sub_assign {S : Type} [Sub S] (a b : Normal3 S) : Normal3 S := ⟨a.x - b.x, a.y - b.y, a.z - b.z⟩

/-- Rust operator impl `Mul<S>` for `Normal3` (src/macros.rs lines 428-430):
componentwise `*` with a scalar on the right. -/
def Normal3.mul {S : Type} [Mul S] (v : Normal3 S) (s : S) : Normal3 S := ⟨v.x * s, v.y * s, v.z * s⟩

/-- Rust impl `MulAssign<S>` for `Normal3` (src/macros.rs lines 431-433): each field is
updated by `self.$field *= scalar`; the updated value is returned. -/
def Normal3.mul_assign {S : Type} [Mul S] (v : Normal3 S) (s : S) : Normal3 S := ⟨v.x * s, v.y * s, v.z * s⟩

/-- Rust operator impl `Div<S>` for `Normal3` (src/macros.rs lines 435-437):
componentwise `/` with a scalar on the right. -/
def Normal3.div {S : Type} [Div S] (v : Normal3 S) (s : S) : Normal3 S := ⟨v.x / s, v.y / s, v.z / s⟩

/-- Rust impl `DivAssign<S>` for `Normal3` (src/macros.rs lines 438-440): each field is
updated by `self.$field /= scalar`; the updated value is returned. -/
def Normal3.div_assign {S : Type} [Div S] (v : Normal3 S) (s : S) : Normal3 S := ⟨v.x / s, v.y / s, v.z / s⟩

/-- Rust operator impl `Rem<S>` for `Normal3` (src/macros.rs lines 442-444):
componentwise `%` with a scalar on the right. -/
def Normal3.rem {S : Type} [Mod S] (v : Normal3 S) (s : S) : Normal3 S := ⟨v.x % s, v.y % s, v.z % s⟩

/-- Rust impl `RemAssign<S>` for `Normal3` (src/macros.rs lines 445-447): each field is
updated by `self.$field %= scalar`; the updated value is returned. -/
def Normal3.rem_assign {S : Type} [Mod S] (v : Normal3 S) (s : S) : Normal3 S := ⟨v.x % s, v.y % s, v.z % s⟩

/-- Rust method `add_element_wise` of `ElementWise` for `Normal3` (src/macros.rs
lines 449-454): componentwise `+` between two same-shaped values. -/
def Normal3.add_element_wise {S : Type} [Add S] (a b : Normal3 S) : Normal3 S := ⟨a.x + b.x, a.y + b.y, a.z + b.z⟩

/-- Rust method `add_assign_element_wise` of `ElementWise` for `Normal3`
(src/macros.rs lines 456-460): each field is updated by
`self.$field += rhs.$field`; the updated value is returned. -/
def Normal3.add_assign_element_wise {S : Type} [Add S] (a b : Normal3 S) : Normal3 S := ⟨a.x + b.x, a.y + b.y, a.z + b.z⟩

/-- Rust method `sub_element_wise` of `ElementWise` for `Normal3` (src/macros.rs
lines 449-454): componentwise `-` between two same-shaped values. -/
def Normal3.sub_element_wise {S : Type} [Sub S] (a b : Normal3 S) : Normal3 S := ⟨a.x - b.x, a.y - b.y, a.z - b.z⟩

/-- Rust method `sub_assign_element_wise` of `ElementWise` for `Normal3`
(src/macros.rs lines 456-460): each field is updated by
`self.$field -= rhs.$field`; the updated value is returned. -/
def Normal3.sub_assign_element_wise {S : Type} [Sub S] (a b : Normal3 S) : Normal3 S := ⟨a.x - b.x, a.y - b.y, a.z - b.z⟩

/-- Rust method `mul_element_wise` of `ElementWise` for `Normal3` (src/macros.rs
lines 449-454): componentwise `*` between two same-shaped values. -/
def Normal3.mul_element_wise {S : Type} [Mul S] (a b : Normal3 S) : Normal3 S := ⟨a.x * b.x, a.y * b.y, a.z * b.z⟩

/-- Rust method `mul_assign_element_wise` of `ElementWise` for `Normal3`
(src/macros.rs lines 456-460): each field is updated by
`self.$field *= rhs.$field`; the updated value is returned. -/
def Normal3.mul_assign_element_wise {S : Type} [Mul S] (a b : Normal3 S) : Normal3 S := ⟨a.x * b.x, a.y * b.y, a.z * b.z⟩

/-- Rust method `div_element_wise` of `ElementWise` for `Normal3` (src/macros.rs
lines 449-454): componentwise `/` between two same-shaped values. -/
def Normal3.div_element_wise {S : Type} [Div S] (a b : Normal3 S) : Normal3 S := ⟨a.x / b.x, a.y / b.y, a.z / b.z⟩

/-- Rust method `div_assign_element_wise` of `ElementWise` for `Normal3`
(src/macros.rs lines 456-460): each field is updated by
`self.$field /= rhs.$field`; the updated value is returned. -/
def Normal3.div_assign_element_wise {S : Type} [Div S] (a b : Normal3 S) : Normal3 S := ⟨a.x / b.x, a.y / b.y, a.z / b.z⟩

/-- Rust method `rem_element_wise` of `ElementWise` for `Normal3` (src/macros.rs
lines 449-454): componentwise `%` between two same-shaped values. -/
def Normal3.rem_element_wise {S : Type} [Mod S] (a b : Normal3 S) : Normal3 S := ⟨a.x % b.x, a.y % b.y, a.z % b.z⟩

/-- Rust method `rem_assign_element_wise` of `ElementWise` for `Normal3`
(src/macros.rs lines 456-460): each field is updated by
`self.$field %= rhs.$field`; the updated value is returned. -/
def Normal3.rem_assign_element_wise {S : Type} [Mod S] (a b : Normal3 S) : Normal3 S := ⟨a.x % b.x, a.y % b.y, a.z % b.z⟩

/-- Rust method `Array::sum` for `Normal3` (src/macros.rs lines 315-317, 131-140):
the left-to-right `fold_array` of `add` over the fields in declared order. -/
def Normal3.sum {S : Type} [Add S] (v : Normal3 S) : S := v.x + v.y + v.z

/-- Rust impl `DotProduct` for `Normal3` (src/normal.rs):
`mul_element_wise(self, other).sum()`. -/
def Normal3.dot {S : Type} [Add S] [Mul S] (a b : Normal3 S) : S := (Normal3.mul_element_wise a b).sum

/-- Rust operator impl `Add` for `Normal4` (src/macros.rs lines 414-416):
componentwise `+` between two values of the same type. -/
def Normal4.add {S : Type} [Add S] (a b : Normal4 S) : Normal4 S := ⟨a.x + b.x, a.y + b.y, a.z + b.z, a.w + b.w⟩

/-- Rust impl `AddAssign` for `Normal4` (src/macros.rs lines 417-419): each field is
updated by `self.$field += other.$field`; the updated value is returned. -/
def Normal4.add_assign {S : Type} [Add S] (a b : Normal4 S) : Normal4 S := ⟨a.x + b.x, a.y + b.y, a.z + b.z, a.w + b.w⟩

/-- Rust operator impl `Sub` for `Normal4` (src/macros.rs lines 421-423):
componentwise `-` between two values of the same type. -/
def Normal4.sub {S : Type} [Sub S] (a b : Normal4 S) : Normal4 S := ⟨a.x - b.x, a.y - b.y, a.z - b.z, a.w - b.w⟩

/-- Rust impl `SubAssign` for `Normal4` (src/macros.rs lines 424-426): each field is
updated by `self.$field -= other.$field`; the updated value is returned. -/
def Normal4.sub_assign {S : Type} [Sub S] (a b : Normal4 S) : Normal4 S := ⟨a.x - b.x, a.y - b.y, a.z - b.z, a.w - b.w⟩

/-- Rust operator impl `Mul<S>` for `Normal4` (src/macros.rs lines 428-430):
componentwise `*` with a scalar on the right. -/
def Normal4.mul {S : Type} [Mul S] (v : Normal4 S) (s : S) : Normal4 S := ⟨v.x * s, v.y * s, v.z * s, v.w * s⟩

/-- Rust impl `MulAssign<S>` for `Normal4` (src/macros.rs lines 431-433): each field is
updated by `self.$field *= scalar`; the updated value is returned. -/
def Normal4.mul_assign {S : Type} [Mul S] (v : Normal4 S) (s : S) : Normal4 S := ⟨v.x * s, v.y * s, v.z * s, v.w * s⟩

/-- Rust operator impl `Div<S>` for `Normal4` (src/macros.rs lines 435-437):
componentwise `/` with a scalar on the right. -/
def Normal4.div {S : Type} [Div S] (v : Normal4 S) (s : S) : Normal4 S := ⟨v.x / s, v.y / s, v.z / s, v.w / s⟩

/-- Rust impl `DivAssign<S>` for `Normal4` (src/macros.rs lines 438-440): each field is
updated by `self.$field /= scalar`; the updated value is returned. -/
def Normal4.div_assign {S : Type} [Div S] (v : Normal4 S) (s : S) : Normal4 S := ⟨v.x / s, v.y / s, v.z / s, v.w / s⟩

/-- Rust operator impl `Rem<S>` for `Normal4` (src/macros.rs lines 442-444):
componentwise `%` with a scalar on the right. -/
def Normal4.rem {S : Type} [Mod S] (v : Normal4 S) (s : S) : Normal4 S := ⟨v.x % s, v.y % s, v.z % s, v.w % s⟩

/-- Rust impl `RemAssign<S>` for `Normal4` (src/macros.rs lines 445-447): each field is
updated by `self.$field %= scalar`; the updated value is returned. -/
def Normal4.rem_assign {S : Type} [Mod S] (v : Normal4 S) (s : S) : Normal4 S := ⟨v.x % s, v.y % s, v.z % s, v.w % s⟩

/-- Rust method `add_element_wise` of `ElementWise` for `Normal4` (src/macros.rs
lines 449-454): componentwise `+` between two same-shaped values. -/
def Normal4.add_element_wise {S : Type} [Add S] (a b : Normal4 S) : Normal4 S := ⟨a.x + b.x, a.y + b.y, a.z + b.z, a.w + b.w⟩

/-- Rust method `add_assign_element_wise` of `ElementWise` for `Normal4`
(src/macros.rs lines 456-460): each field is updated by
`self.$field += rhs.$field`; the updated value is returned. -/
def Normal4.add_assign_element_wise {S : Type} [Add S] (a b : Normal4 S) : Normal4 S := ⟨a.x + b.x, a.y + b.y, a.z + b.z, a.w + b.w⟩

/-- Rust method `sub_element_wise` of `ElementWise` for `Normal4` (src/macros.rs
lines 449-454): componentwise `-` between two same-shaped values. -/
def Normal4.sub_element_wise {S : Type} [Sub S] (a b : Normal4 S) : Normal4 S := ⟨a.x - b.x, a.y - b.y, a.z - b.z, a.w - b.w⟩

/-- Rust method `sub_assign_element_wise` of `ElementWise` for `Normal4`
(src/macros.rs lines 456-460): each field is updated by
`self.$field -= rhs.$field`; the updated value is returned. -/
def Normal4.sub_assign_element_wise {S : Type} [Sub S] (a b : Normal4 S) : Normal4 S := ⟨a.x - b.x, a.y - b.y, a.z - b.z, a.w - b.w⟩

/-- Rust method `mul_element_wise` of `ElementWise` for `Normal4` (src/macros.rs
lines 449-454): componentwise `*` between two same-shaped values. -/
def Normal4.mul_element_wise {S : Type} [Mul S] (a b : Normal4 S) : Normal4 S := ⟨a.x * b.x, a.y * b.y, a.z * b.z, a.w * b.w⟩

/-- Rust method `mul_assign_element_wise` of `ElementWise` for `Normal4`
(src/macros.rs lines 456-460): each field is updated by
`self.$field *= rhs.$field`; the updated value is returned. -/
def Normal4.mul_assign_element_wise {S : Type} [Mul S] (a b : Normal4 S) : Normal4 S := ⟨a.x * b.x, a.y * b.y, a.z * b.z, a.w * b.w⟩

/-- Rust method `div_element_wise` of `ElementWise` for `Normal4` (src/macros.rs
lines 449-454): componentwise `/` between two same-shaped values. -/
def Normal4.div_element_wise {S : Type} [Div S] (a b : Normal4 S) : Normal4 S := ⟨a.x / b.x, a.y / b.y, a.z / b.z, a.w / b.w⟩

/-- Rust method `div_assign_element_wise` of `ElementWise` for `Normal4`
(src/macros.rs lines 456-460): each field is updated by
`self.$field /= rhs.$field`; the updated value is returned. -/
def Normal4.div_assign_element_wise {S : Type} [Div S] (a b : Normal4 S) : Normal4 S := ⟨a.x / b.x, a.y / b.y, a.z / b.z, a.w / b.w⟩

/-- Rust method `rem_element_wise` of `ElementWise` for `Normal4` (src/macros.rs
lines 449-454): componentwise `%` between two same-shaped values. -/
def Normal4.rem_element_wise {S : Type} [Mod S] (a b : Normal4 S) : Normal4 S := ⟨a.x % b.x, a.y % b.y, a.z % b.z, a.w % b.w⟩

/-- Rust method `rem_assign_element_wise` of `ElementWise` for `Normal4`
(src/macros.rs lines 456-460): each field is updated by
`self.$field %= rhs.$field`; the updated value is returned. -/
def Normal4.rem_assign_element_wise {S : Type} [Mod S] (a b : Normal4 S) : Normal4 S := ⟨a.x % b.x, a.y % b.y, a.z % b.z, a.w % b.w⟩

/-- Rust method `Array::sum` for `Normal4` (src/macros.rs lines 315-317, 131-140):
the left-to-right `fold_array` of `add` over the fields in declared order. -/
def Normal4.sum {S : Type} [Add S] (v : Normal4 S) : S := v.x + v.y + v.z + v.w

/-- Rust impl `DotProduct` for `Normal4` (src/normal.rs):
`mul_element_wise(self, other).sum()`. -/
def Normal4.dot {S : Type} [Add S] [Mul S] (a b : Normal4 S) : S := (Normal4.mul_element_wise a b).sum

/-- Modelled from the spec: the scalar capability `BaseFloat` lives in
src/num.rs, which is not under src/; per spec section 4.1 a `BaseFloat`
scalar provides "infinity and NaN sentinel values". This class supplies the
distinguished `infinity` element that `S::infinity()` denotes in
src/ray.rs. -/
class FloatInf (S : Type) where
  infinity : S

/-- Modelled from the spec: src/num.rs (`BaseFloat`) is not under src/; a
floating scalar with an infinity sentinel is modelled as a rational number
extended with one `infinity` element, enough for exact evaluation of the
spec scenarios. -/
inductive QInf : Type where
  | fin (q : ℚ) : QInf
  | infty : QInf
deriving DecidableEq

instance : Zero QInf := ⟨QInf.fin 0⟩

instance : Add QInf where
  add a b := match a, b with
    | QInf.fin p, QInf.fin q => QInf.fin (p + q)
    | _, _ => QInf.infty

instance : Mul QInf where
  mul a b := match a, b with
    | QInf.fin p, QInf.fin q => QInf.fin (p * q)
    | _, _ => QInf.infty

instance : FloatInf QInf := ⟨QInf.infty⟩

/-- Unfolding lemma for addition of finite `QInf` values. -/
theorem QInf.fin_add (p q : ℚ) : QInf.fin p + QInf.fin q = QInf.fin (p + q) := rfl

/-- Unfolding lemma for multiplication of finite `QInf` values. -/
theorem QInf.fin_mul (p q : ℚ) : QInf.fin p * QInf.fin q = QInf.fin (p * q) := rfl

/-- The zero of `QInf` is the finite rational zero. -/
theorem QInf.zero_fin : (0 : QInf) = QInf.fin 0 := rfl

/-- Modelled from the spec: src/point.rs is not under src/. Per spec
sections 3 and 6, `Point2` is a position in 2-space with the same layout and
component structure as `Vector2`. -/
structure Point2 (S : Type) where
  x : S
  y : S
deriving DecidableEq

/-- Modelled from the spec: src/point.rs is not under src/. Per spec
sections 3 and 6, `Point3` is a position in 3-space with the same layout and
component structure as `Vector3`. -/
structure Point3 (S : Type) where
  x : S
  y : S
  z : S
deriving DecidableEq

/-- Modelled from the spec: src/point.rs is not under src/. Per spec
section 6, points admit addition of a displacement vector
("origin + t * direction"); the translation is componentwise. -/
def Point2.addVec {S : Type} [Add S] (p : Point2 S) (v : Vector2 S) : Point2 S :=
  ⟨p.x + v.x, p.y + v.y⟩

/-- Modelled from the spec: src/point.rs is not under src/. Per spec
section 6, points admit addition of a displacement vector
("origin + t * direction"); the translation is componentwise. -/
def Point3.addVec {S : Type} [Add S] (p : Point3 S) (v : Vector3 S) : Point3 S :=
  ⟨p.x + v.x, p.y + v.y, p.z + v.z⟩

/-- Rust struct `Ray2` (src/ray.rs lines 14-27). -/
structure Ray2 (S : Type) where
  o : Point2 S
  d : Vector2 S
  min_t : S
  max_t : S
  depth : Nat
  time : S
deriving DecidableEq

/-- Rust struct `Ray3` (src/ray.rs lines 38-51). -/
structure Ray3 (S : Type) where
  o : Point3 S
  d : Vector3 S
  min_t : S
  max_t : S
  depth : Nat
  time : S
deriving DecidableEq

/-- Rust constructor `Ray2::new` (src/ray.rs lines 55-57): infinite ray with
`min_t = S::zero()`, `max_t = S::infinity()`, `depth = 0`. -/
def Ray2.new {S : Type} [Zero S] [FloatInf S] (o : Point2 S) (d : Vector2 S) (time : S) :
    Ray2 S :=
  { o := o, d := d, min_t := 0, max_t := FloatInf.infinity, depth := 0, time := time }

/-- Rust constructor `Ray2::segment` (src/ray.rs lines 59-61). -/
def Ray2.segment {S : Type} (o : Point2 S) (d : Vector2 S) (min_t max_t time : S) : Ray2 S :=
  { o := o, d := d, min_t := min_t, max_t := max_t, depth := 0, time := time }

/-- Rust method `Ray2::child` (src/ray.rs lines 63-65): child ray with
`depth = self.depth + 1` and `time = self.time`. -/
def Ray2.child {S : Type} [Zero S] [FloatInf S] (r : Ray2 S) (o : Point2 S) (d : Vector2 S) :
    Ray2 S :=
  { o := o, d := d, min_t := 0, max_t := FloatInf.infinity, depth := r.depth + 1,
    time := r.time }

/-- Rust method `Ray2::child_segment` (src/ray.rs lines 67-69). -/
def Ray2.child_segment {S : Type} (r : Ray2 S) (o : Point2 S) (d : Vector2 S)
    (min_t max_t : S) : Ray2 S :=
  { o := o, d := d, min_t := min_t, max_t := max_t, depth := r.depth + 1, time := r.time }

/-- Rust method `Ray2::at` (src/ray.rs lines 72-74): `self.o + self.d * t`. -/
def Ray2.at {S : Type} [Add S] [Mul S] (r : Ray2 S) (t : S) : Point2 S :=
  Point2.addVec r.o (Vector2.mul r.d t)

/-- Rust constructor `Ray3::new` (src/ray.rs lines 79-81): infinite ray with
`min_t = S::zero()`, `max_t = S::infinity()`, `depth = 0`. -/
def Ray3.new {S : Type} [Zero S] [FloatInf S] (o : Point3 S) (d : Vector3 S) (time : S) :
    Ray3 S :=
  { o := o, d := d, min_t := 0, max_t := FloatInf.infinity, depth := 0, time := time }

/-- Rust constructor `Ray3::segment` (src/ray.rs lines 83-85). -/
def Ray3.segment {S : Type} (o : Point3 S) (d : Vector3 S) (min_t max_t time : S) : Ray3 S :=
  { o := o, d := d, min_t := min_t, max_t := max_t, depth := 0, time := time }

/-- Rust method `Ray3::child` (src/ray.rs lines 87-89): child ray with
`depth = self.depth + 1` and `time = self.time`. -/
def Ray3.child {S : Type} [Zero S] [FloatInf S] (r : Ray3 S) (o : Point3 S) (d : Vector3 S) :
    Ray3 S :=
  { o := o, d := d, min_t := 0, max_t := FloatInf.infinity, depth := r.depth + 1,
    time := r.time }

/-- Rust method `Ray3::child_segment` (src/ray.rs lines 91-93). -/
def Ray3.child_segment {S : Type} (r : Ray3 S) (o : Point3 S) (d : Vector3 S)
    (min_t max_t : S) : Ray3 S :=
  { o := o, d := d, min_t := min_t, max_t := max_t, depth := r.depth + 1, time := r.time }

/-- Rust method `Ray3::at` (src/ray.rs lines 96-98): `self.o + self.d * t`. -/
def Ray3.at {S : Type} [Add S] [Mul S] (r : Ray3 S) (t : S) : Point3 S :=
  Point3.addVec r.o (Vector3.mul r.d t)

/-- C2: for every vector or normal of any arity and any scalar type, `cast`
with a per-component partial conversion returns `none` (the model of the
`unwrap` panic) whenever some component is not representable in the target
type, and returns the componentwise converted value when every component is
representable. -/
theorem C2_cast_signals_failure :
    (∀ (S A : Type) (conv : S → Option A) (v : Vector1 S),
      (∀ (a : A), conv v.x = some a →
        Vector1.cast conv v = some ⟨a⟩) ∧
      (conv v.x = none → Vector1.cast conv v = none)) ∧
    (∀ (S A : Type) (conv : S → Option A) (v : Vector2 S),
      (∀ (a : A) (b : A), conv v.x = some a → conv v.y = some b →
        Vector2.cast conv v = some ⟨a, b⟩) ∧
      (conv v.x = none ∨ conv v.y = none → Vector2.cast conv v = none)) ∧
    (∀ (S A : Type) (conv : S → Option A) (v : Vector3 S),
      (∀ (a : A) (b : A) (c : A), conv v.x = some a → conv v.y = some b → conv v.z = some c →
        Vector3.cast conv v = some ⟨a, b, c⟩) ∧
      (conv v.x = none ∨ conv v.y = none ∨ conv v.z = none → Vector3.cast conv v = none)) ∧
    (∀ (S A : Type) (conv : S → Option A) (v : Vector4 S),
      (∀ (a : A) (b : A) (c : A) (d : A), conv v.x = some a → conv v.y = some b → conv v.z = some c → conv v.w = some d →
        Vector4.cast conv v = some ⟨a, b, c, d⟩) ∧
      (conv v.x = none ∨ conv v.y = none ∨ conv v.z = none ∨ conv v.w = none → Vector4.cast conv v = none)) ∧
    (∀ (S A : Type) (conv : S → Option A) (v : Normal1 S),
      (∀ (a : A), conv v.x = some a →
        Normal1.cast conv v = some ⟨a⟩) ∧
      (conv v.x = none → Normal1.cast conv v = none)) ∧
    (∀ (S A : Type) (conv : S → Option A) (v : Normal2 S),
      (∀ (a : A) (b : A), conv v.x = some a → conv v.y = some b →
        Normal2.cast conv v = some ⟨a, b⟩) ∧
      (conv v.x = none ∨ conv v.y = none → Normal2.cast conv v = none)) ∧
    (∀ (S A : Type) (conv : S → Option A) (v : Normal3 S),
      (∀ (a : A) (b : A) (c : A), conv v.x = some a → conv v.y = some b → conv v.z = some c →
        Normal3.cast conv v = some ⟨a, b, c⟩) ∧
      (conv v.x = none ∨ conv v.y = none ∨ conv v.z = none → Normal3.cast conv v = none)) ∧
    (∀ (S A : Type) (conv : S → Option A) (v : Normal4 S),
      (∀ (a : A) (b : A) (c : A) (d : A), conv v.x = some a → conv v.y = some b → conv v.z = some c → conv v.w = some d →
        Normal4.cast conv v = some ⟨a, b, c, d⟩) ∧
      (conv v.x = none ∨ conv v.y = none ∨ conv v.z = none ∨ conv v.w = none → Normal4.cast conv v = none)) := by
  refine ⟨?_, ?_, ?_, ?_, ?_, ?_, ?_, ?_⟩ <;> intro S A conv v
  · refine ⟨?_, ?_⟩
    · intro a hx
      simp [Vector1.cast, hx]
    · intro h
      cases hxp : conv v.x <;> simp_all [Vector1.cast]
  · refine ⟨?_, ?_⟩
    · intro a b hx hy
      simp [Vector2.cast, hx, hy]
    · intro h
      cases hxp : conv v.x <;> cases hyp : conv v.y <;> simp_all [Vector2.cast]
  · refine ⟨?_, ?_⟩
    · intro a b c hx hy hz
      simp [Vector3.cast, hx, hy, hz]
    · intro h
      cases hxp : conv v.x <;> cases hyp : conv v.y <;> cases hzp : conv v.z <;> simp_all [Vector3.cast]
  · refine ⟨?_, ?_⟩
    · intro a b c d hx hy hz hw
      simp [Vector4.cast, hx, hy, hz, hw]
    · intro h
      cases hxp : conv v.x <;> cases hyp : conv v.y <;> cases hzp : conv v.z <;> cases hwp : conv v.w <;> simp_all [Vector4.cast]
  · refine ⟨?_, ?_⟩
    · intro a hx
      simp [Normal1.cast, hx]
    · intro h
      cases hxp : conv v.x <;> simp_all [Normal1.cast]
  · refine ⟨?_, ?_⟩
    · intro a b hx hy
      simp [Normal2.cast, hx, hy]
    · intro h
      cases hxp : conv v.x <;> cases hyp : conv v.y <;> simp_all [Normal2.cast]
  · refine ⟨?_, ?_⟩
    · intro a b c hx hy hz
      simp [Normal3.cast, hx, hy, hz]
    · intro h
      cases hxp : conv v.x <;> cases hyp : conv v.y <;> cases hzp : conv v.z <;> simp_all [Normal3.cast]
  · refine ⟨?_, ?_⟩
    · intro a b c d hx hy hz hw
      simp [Normal4.cast, hx, hy, hz, hw]
    · intro h
      cases hxp : conv v.x <;> cases hyp : conv v.y <;> cases hzp : conv v.z <;> cases hwp : conv v.w <;> simp_all [Normal4.cast]

/-- Witness for C2: concrete integer-to-natural conversion on `Vector2 ℤ`,
succeeding on `(3, 4)` and failing on `(3, -1)` whose second component is
not representable. -/
theorem C2_cast_witness :
    Vector2.cast (fun z : ℤ => if 0 ≤ z then some z.toNat else none)
      (⟨3, 4⟩ : Vector2 ℤ) = some ⟨3, 4⟩ ∧
    Vector2.cast (fun z : ℤ => if 0 ≤ z then some z.toNat else none)
      (⟨3, -1⟩ : Vector2 ℤ) = none := by
  constructor
  · exact (C2_cast_signals_failure.2.1 ℤ ℕ _ _).1 3 4 (by decide) (by decide)
  · exact (C2_cast_signals_failure.2.1 ℤ ℕ _ _).2 (Or.inr (by decide))

/-- C3: for every arity and both families, indexing position `i < N` returns
the `i`-th declared component (x=0, y=1, z=2, w=3), writing through index `i`
and reading it back yields the written value, and indexing or writing any
`i ≥ N` is the modelled panic (`none`), never a clamped or wrapped access. -/
theorem C3_index_access :
    (∀ (S : Type) (v : Vector1 S),
      (Vector1.index v 0 = some v.x) ∧
      (∀ i : Nat, 1 ≤ i → Vector1.index v i = none ∧ ∀ s : S, Vector1.index_mut v i s = none) ∧
      (∀ (i : Nat) (s : S), i < 1 →
        ∃ v', Vector1.index_mut v i s = some v' ∧ Vector1.index v' i = some s)) ∧
    (∀ (S : Type) (v : Vector2 S),
      (Vector2.index v 0 = some v.x ∧ Vector2.index v 1 = some v.y) ∧
      (∀ i : Nat, 2 ≤ i → Vector2.index v i = none ∧ ∀ s : S, Vector2.index_mut v i s = none) ∧
      (∀ (i : Nat) (s : S), i < 2 →
        ∃ v', Vector2.index_mut v i s = some v' ∧ Vector2.index v' i = some s)) ∧
    (∀ (S : Type) (v : Vector3 S),
      (Vector3.index v 0 = some v.x ∧ Vector3.index v 1 = some v.y ∧ Vector3.index v 2 = some v.z) ∧
      (∀ i : Nat, 3 ≤ i → Vector3.index v i = none ∧ ∀ s : S, Vector3.index_mut v i s = none) ∧
      (∀ (i : Nat) (s : S), i < 3 →
        ∃ v', Vector3.index_mut v i s = some v' ∧ Vector3.index v' i = some s)) ∧
    (∀ (S : Type) (v : Vector4 S),
      (Vector4.index v 0 = some v.x ∧ Vector4.index v 1 = some v.y ∧ Vector4.index v 2 = some v.z ∧ Vector4.index v 3 = some v.w) ∧
      (∀ i : Nat, 4 ≤ i → Vector4.index v i = none ∧ ∀ s : S, Vector4.index_mut v i s = none) ∧
      (∀ (i : Nat) (s : S), i < 4 →
        ∃ v', Vector4.index_mut v i s = some v' ∧ Vector4.index v' i = some s)) ∧
    (∀ (S : Type) (v : Normal1 S),
      (Normal1.index v 0 = some v.x) ∧
      (∀ i : Nat, 1 ≤ i → Normal1.index v i = none ∧ ∀ s : S, Normal1.index_mut v i s = none) ∧
      (∀ (i : Nat) (s : S), i < 1 →
        ∃ v', Normal1.index_mut v i s = some v' ∧ Normal1.index v' i = some s)) ∧
    (∀ (S : Type) (v : Normal2 S),
      (Normal2.index v 0 = some v.x ∧ Normal2.index v 1 = some v.y) ∧
      (∀ i : Nat, 2 ≤ i → Normal2.index v i = none ∧ ∀ s : S, Normal2.index_mut v i s = none) ∧
      (∀ (i : Nat) (s : S), i < 2 →
        ∃ v', Normal2.index_mut v i s = some v' ∧ Normal2.index v' i = some s)) ∧
    (∀ (S : Type) (v : Normal3 S),
      (Normal3.index v 0 = some v.x ∧ Normal3.index v 1 = some v.y ∧ Normal3.index v 2 = some v.z) ∧
      (∀ i : Nat, 3 ≤ i → Normal3.index v i = none ∧ ∀ s : S, Normal3.index_mut v i s = none) ∧
      (∀ (i : Nat) (s : S), i < 3 →
        ∃ v', Normal3.index_mut v i s = some v' ∧ Normal3.index v' i = some s)) ∧
    (∀ (S : Type) (v : Normal4 S),
      (Normal4.index v 0 = some v.x ∧ Normal4.index v 1 = some v.y ∧ Normal4.index v 2 = some v.z ∧ Normal4.index v 3 = some v.w) ∧
      (∀ i : Nat, 4 ≤ i → Normal4.index v i = none ∧ ∀ s : S, Normal4.index_mut v i s = none) ∧
      (∀ (i : Nat) (s : S), i < 4 →
        ∃ v', Normal4.index_mut v i s = some v' ∧ Normal4.index v' i = some s)) := by
  refine ⟨?_, ?_, ?_, ?_, ?_, ?_, ?_, ?_⟩ <;> intro S v
  · refine ⟨rfl, ?_, ?_⟩
    · intro i hi
      constructor
      · simp [Vector1.index, Vector1.arrayView, List.getElem?_eq_none_iff]
        omega
      · intro s
        rcases i with _|i
        · exact absurd hi (by decide)
        · rfl
    · intro i s hi
      interval_cases i
      exact ⟨_, rfl, rfl⟩
  · refine ⟨⟨rfl, rfl⟩, ?_, ?_⟩
    · intro i hi
      constructor
      · simp [Vector2.index, Vector2.arrayView, List.getElem?_eq_none_iff]
        omega
      · intro s
        rcases i with _|_|i
        · exact absurd hi (by decide)
        · exact absurd hi (by decide)
        · rfl
    · intro i s hi
      interval_cases i <;> exact ⟨_, rfl, rfl⟩
  · refine ⟨⟨rfl, rfl, rfl⟩, ?_, ?_⟩
    · intro i hi
      constructor
      · simp [Vector3.index, Vector3.arrayView, List.getElem?_eq_none_iff]
        omega
      · intro s
        rcases i with _|_|_|i
        · exact absurd hi (by decide)
        · exact absurd hi (by decide)
        · exact absurd hi (by decide)
        · rfl
    · intro i s hi
      interval_cases i <;> exact ⟨_, rfl, rfl⟩
  · refine ⟨⟨rfl, rfl, rfl, rfl⟩, ?_, ?_⟩
    · intro i hi
      constructor
      · simp [Vector4.index, Vector4.arrayView, List.getElem?_eq_none_iff]
        omega
      · intro s
        rcases i with _|_|_|_|i
        · exact absurd hi (by decide)
        · exact absurd hi (by decide)
        · exact absurd hi (by decide)
        · exact absurd hi (by decide)
        · rfl
    · intro i s hi
      interval_cases i <;> exact ⟨_, rfl, rfl⟩
  · refine ⟨rfl, ?_, ?_⟩
    · intro i hi
      constructor
      · simp [Normal1.index, Normal1.arrayView, List.getElem?_eq_none_iff]
        omega
      · intro s
        rcases i with _|i
        · exact absurd hi (by decide)
        · rfl
    · intro i s hi
      interval_cases i
      exact ⟨_, rfl, rfl⟩
  · refine ⟨⟨rfl, rfl⟩, ?_, ?_⟩
    · intro i hi
      constructor
      · simp [Normal2.index, Normal2.arrayView, List.getElem?_eq_none_iff]
        omega
      · intro s
        rcases i with _|_|i
        · exact absurd hi (by decide)
        · exact absurd hi (by decide)
        · rfl
    · intro i s hi
      interval_cases i <;> exact ⟨_, rfl, rfl⟩
  · refine ⟨⟨rfl, rfl, rfl⟩, ?_, ?_⟩
    · intro i hi
      constructor
      · simp [Normal3.index, Normal3.arrayView, List.getElem?_eq_none_iff]
        omega
      · intro s
        rcases i with _|_|_|i
        · exact absurd hi (by decide)
        · exact absurd hi (by decide)
        · exact absurd hi (by decide)
        · rfl
    · intro i s hi
      interval_cases i <;> exact ⟨_, rfl, rfl⟩
  · refine ⟨⟨rfl, rfl, rfl, rfl⟩, ?_, ?_⟩
    · intro i hi
      constructor
      · simp [Normal4.index, Normal4.arrayView, List.getElem?_eq_none_iff]
        omega
      · intro s
        rcases i with _|_|_|_|i
        · exact absurd hi (by decide)
        · exact absurd hi (by decide)
        · exact absurd hi (by decide)
        · exact absurd hi (by decide)
        · rfl
    · intro i s hi
      interval_cases i <;> exact ⟨_, rfl, rfl⟩

/-- Witness for C3: on the concrete `Vector2 ℤ` value `(1, 2)`, writing `5`
at position 0 and reading it back yields `5`, and indexing position 2 is the
modelled panic. -/
theorem C3_index_witness :
    (∃ v', Vector2.index_mut (⟨1, 2⟩ : Vector2 ℤ) 0 5 = some v' ∧
      Vector2.index v' 0 = some 5) ∧
    Vector2.index (⟨1, 2⟩ : Vector2 ℤ) 2 = none := by
  constructor
  · exact (C3_index_access.2.1 ℤ ⟨1, 2⟩).2.2 0 5 (by decide)
  · exact ((C3_index_access.2.1 ℤ ⟨1, 2⟩).2.1 2 (by decide)).1

/-- C4 counterexample: the claim appends the range views in the order
`v[k..] + v[..k]`; at the split point k = 1 of the `Vector2 ℤ` value `(1, 2)`
this concatenation is `[2, 1]`, which is not the full component sequence
`[1, 2]`, so the claim as stated is false. -/
theorem C4_rotation_counterexample :
    Vector2.index_range_from (⟨1, 2⟩ : Vector2 ℤ) 1 = some [2] ∧
    Vector2.index_range_to (⟨1, 2⟩ : Vector2 ℤ) 1 = some [1] ∧
    ¬ (([2] ++ [1] : List ℤ) = Vector2.arrayView (⟨1, 2⟩ : Vector2 ℤ)) := by
  refine ⟨rfl, rfl, by decide⟩

/-- C4 amended: for every vector or normal of arity N, `v[..0]` has length 0,
`v[..N]` is the full component sequence, and for every split point k ≤ N the
concatenation `v[..k] ++ v[k..]` (prefix first) reconstructs the full
component sequence. -/
theorem C4_range_views :
    (∀ (S : Type) (v : Vector1 S),
      Vector1.index_range_to v 0 = some [] ∧
      Vector1.index_range_to v 1 = some (Vector1.arrayView v) ∧
      (∀ k : Nat, k ≤ 1 →
        ∃ l₁ l₂, Vector1.index_range_to v k = some l₁ ∧ Vector1.index_range_from v k = some l₂ ∧
          l₁ ++ l₂ = Vector1.arrayView v)) ∧
    (∀ (S : Type) (v : Vector2 S),
      Vector2.index_range_to v 0 = some [] ∧
      Vector2.index_range_to v 2 = some (Vector2.arrayView v) ∧
      (∀ k : Nat, k ≤ 2 →
        ∃ l₁ l₂, Vector2.index_range_to v k = some l₁ ∧ Vector2.index_range_from v k = some l₂ ∧
          l₁ ++ l₂ = Vector2.arrayView v)) ∧
    (∀ (S : Type) (v : Vector3 S),
      Vector3.index_range_to v 0 = some [] ∧
      Vector3.index_range_to v 3 = some (Vector3.arrayView v) ∧
      (∀ k : Nat, k ≤ 3 →
        ∃ l₁ l₂, Vector3.index_range_to v k = some l₁ ∧ Vector3.index_range_from v k = some l₂ ∧
          l₁ ++ l₂ = Vector3.arrayView v)) ∧
    (∀ (S : Type) (v : Vector4 S),
      Vector4.index_range_to v 0 = some [] ∧
      Vector4.index_range_to v 4 = some (Vector4.arrayView v) ∧
      (∀ k : Nat, k ≤ 4 →
        ∃ l₁ l₂, Vector4.index_range_to v k = some l₁ ∧ Vector4.index_range_from v k = some l₂ ∧
          l₁ ++ l₂ = Vector4.arrayView v)) ∧
    (∀ (S : Type) (v : Normal1 S),
      Normal1.index_range_to v 0 = some [] ∧
      Normal1.index_range_to v 1 = some (Normal1.arrayView v) ∧
      (∀ k : Nat, k ≤ 1 →
        ∃ l₁ l₂, Normal1.index_range_to v k = some l₁ ∧ Normal1.index_range_from v k = some l₂ ∧
          l₁ ++ l₂ = Normal1.arrayView v)) ∧
    (∀ (S : Type) (v : Normal2 S),
      Normal2.index_range_to v 0 = some [] ∧
      Normal2.index_range_to v 2 = some (Normal2.arrayView v) ∧
      (∀ k : Nat, k ≤ 2 →
        ∃ l₁ l₂, Normal2.index_range_to v k = some l₁ ∧ Normal2.index_range_from v k = some l₂ ∧
          l₁ ++ l₂ = Normal2.arrayView v)) ∧
    (∀ (S : Type) (v : Normal3 S),
      Normal3.index_range_to v 0 = some [] ∧
      Normal3.index_range_to v 3 = some (Normal3.arrayView v) ∧
      (∀ k : Nat, k ≤ 3 →
        ∃ l₁ l₂, Normal3.index_range_to v k = some l₁ ∧ Normal3.index_range_from v k = some l₂ ∧
          l₁ ++ l₂ = Normal3.arrayView v)) ∧
    (∀ (S : Type) (v : Normal4 S),
      Normal4.index_range_to v 0 = some [] ∧
      Normal4.index_range_to v 4 = some (Normal4.arrayView v) ∧
      (∀ k : Nat, k ≤ 4 →
        ∃ l₁ l₂, Normal4.index_range_to v k = some l₁ ∧ Normal4.index_range_from v k = some l₂ ∧
          l₁ ++ l₂ = Normal4.arrayView v)) := by
  refine ⟨?_, ?_, ?_, ?_, ?_, ?_, ?_, ?_⟩ <;> intro S v
  · refine ⟨rfl, rfl, ?_⟩
    intro k hk
    refine ⟨(Vector1.arrayView v).take k, (Vector1.arrayView v).drop k, ?_, ?_,
      List.take_append_drop k _⟩
    · simp [Vector1.index_range_to, hk]
    · simp [Vector1.index_range_from, hk]
  · refine ⟨rfl, rfl, ?_⟩
    intro k hk
    refine ⟨(Vector2.arrayView v).take k, (Vector2.arrayView v).drop k, ?_, ?_,
      List.take_append_drop k _⟩
    · simp [Vector2.index_range_to, hk]
    · simp [Vector2.index_range_from, hk]
  · refine ⟨rfl, rfl, ?_⟩
    intro k hk
    refine ⟨(Vector3.arrayView v).take k, (Vector3.arrayView v).drop k, ?_, ?_,
      List.take_append_drop k _⟩
    · simp [Vector3.index_range_to, hk]
    · simp [Vector3.index_range_from, hk]
  · refine ⟨rfl, rfl, ?_⟩
    intro k hk
    refine ⟨(Vector4.arrayView v).take k, (Vector4.arrayView v).drop k, ?_, ?_,
      List.take_append_drop k _⟩
    · simp [Vector4.index_range_to, hk]
    · simp [Vector4.index_range_from, hk]
  · refine ⟨rfl, rfl, ?_⟩
    intro k hk
    refine ⟨(Normal1.arrayView v).take k, (Normal1.arrayView v).drop k, ?_, ?_,
      List.take_append_drop k _⟩
    · simp [Normal1.index_range_to, hk]
    · simp [Normal1.index_range_from, hk]
  · refine ⟨rfl, rfl, ?_⟩
    intro k hk
    refine ⟨(Normal2.arrayView v).take k, (Normal2.arrayView v).drop k, ?_, ?_,
      List.take_append_drop k _⟩
    · simp [Normal2.index_range_to, hk]
    · simp [Normal2.index_range_from, hk]
  · refine ⟨rfl, rfl, ?_⟩
    intro k hk
    refine ⟨(Normal3.arrayView v).take k, (Normal3.arrayView v).drop k, ?_, ?_,
      List.take_append_drop k _⟩
    · simp [Normal3.index_range_to, hk]
    · simp [Normal3.index_range_from, hk]
  · refine ⟨rfl, rfl, ?_⟩
    intro k hk
    refine ⟨(Normal4.arrayView v).take k, (Normal4.arrayView v).drop k, ?_, ?_,
      List.take_append_drop k _⟩
    · simp [Normal4.index_range_to, hk]
    · simp [Normal4.index_range_from, hk]

/-- Witness for C4 amended: the split point k = 1 on the concrete value
`(1, 2) : Vector2 ℤ` reconstructs the full sequence prefix-first. -/
theorem C4_range_views_witness :
    ∃ l₁ l₂, Vector2.index_range_to (⟨1, 2⟩ : Vector2 ℤ) 1 = some l₁ ∧
      Vector2.index_range_from (⟨1, 2⟩ : Vector2 ℤ) 1 = some l₂ ∧
      l₁ ++ l₂ = Vector2.arrayView (⟨1, 2⟩ : Vector2 ℤ) := by
  exact (C4_range_views.2.1 ℤ ⟨1, 2⟩).2.2 1 (by decide)

/-- C5: for every arity and scalar type, converting a fixed array into the
vector/normal type and back yields the original array, in both directions,
and likewise for the homogeneous tuple conversions. The Rust by-reference
forms are layout-preserving transmutes of the same data, so they are
modelled by the same component maps. -/
theorem C5_array_tuple_round_trip :
    (∀ (S : Type) (v : Vector1 S) (a : S),
      Vector1.from_array (Vector1.into_array v) = v ∧ Vector1.into_array (Vector1.from_array a) = a ∧
      Vector1.from_tuple (Vector1.into_tuple v) = v ∧ Vector1.into_tuple (Vector1.from_tuple a) = a) ∧
    (∀ (S : Type) (v : Vector2 S) (a : S × S),
      Vector2.from_array (Vector2.into_array v) = v ∧ Vector2.into_array (Vector2.from_array a) = a ∧
      Vector2.from_tuple (Vector2.into_tuple v) = v ∧ Vector2.into_tuple (Vector2.from_tuple a) = a) ∧
    (∀ (S : Type) (v : Vector3 S) (a : S × S × S),
      Vector3.from_array (Vector3.into_array v) = v ∧ Vector3.into_array (Vector3.from_array a) = a ∧
      Vector3.from_tuple (Vector3.into_tuple v) = v ∧ Vector3.into_tuple (Vector3.from_tuple a) = a) ∧
    (∀ (S : Type) (v : Vector4 S) (a : S × S × S × S),
      Vector4.from_array (Vector4.into_array v) = v ∧ Vector4.into_array (Vector4.from_array a) = a ∧
      Vector4.from_tuple (Vector4.into_tuple v) = v ∧ Vector4.into_tuple (Vector4.from_tuple a) = a) ∧
    (∀ (S : Type) (v : Normal1 S) (a : S),
      Normal1.from_array (Normal1.into_array v) = v ∧ Normal1.into_array (Normal1.from_array a) = a ∧
      Normal1.from_tuple (Normal1.into_tuple v) = v ∧ Normal1.into_tuple (Normal1.from_tuple a) = a) ∧
    (∀ (S : Type) (v : Normal2 S) (a : S × S),
      Normal2.from_array (Normal2.into_array v) = v ∧ Normal2.into_array (Normal2.from_array a) = a ∧
      Normal2.from_tuple (Normal2.into_tuple v) = v ∧ Normal2.into_tuple (Normal2.from_tuple a) = a) ∧
    (∀ (S : Type) (v : Normal3 S) (a : S × S × S),
      Normal3.from_array (Normal3.into_array v) = v ∧ Normal3.into_array (Normal3.from_array a) = a ∧
      Normal3.from_tuple (Normal3.into_tuple v) = v ∧ Normal3.into_tuple (Normal3.from_tuple a) = a) ∧
    (∀ (S : Type) (v : Normal4 S) (a : S × S × S × S),
      Normal4.from_array (Normal4.into_array v) = v ∧ Normal4.into_array (Normal4.from_array a) = a ∧
      Normal4.from_tuple (Normal4.into_tuple v) = v ∧ Normal4.into_tuple (Normal4.from_tuple a) = a) := by
  refine ⟨?_, ?_, ?_, ?_, ?_, ?_, ?_, ?_⟩ <;>
    (intros; exact ⟨rfl, rfl, rfl, rfl⟩)

/-- C6: for every arity and both families, the dot product equals the sum of
the componentwise products folded left to right in declared component order,
and it is symmetric. The `BaseFloat` scalar is modelled as a commutative
ring, the algebraic content these identities rely on. -/
theorem C6_dot_fold_and_symmetry :
    (∀ (S : Type) [CommRing S] (a b : Vector1 S),
      Vector1.dot a b = a.x * b.x ∧ Vector1.dot a b = Vector1.dot b a) ∧
    (∀ (S : Type) [CommRing S] (a b : Vector2 S),
      Vector2.dot a b = a.x * b.x + a.y * b.y ∧ Vector2.dot a b = Vector2.dot b a) ∧
    (∀ (S : Type) [CommRing S] (a b : Vector3 S),
      Vector3.dot a b = a.x * b.x + a.y * b.y + a.z * b.z ∧ Vector3.dot a b = Vector3.dot b a) ∧
    (∀ (S : Type) [CommRing S] (a b : Vector4 S),
      Vector4.dot a b = a.x * b.x + a.y * b.y + a.z * b.z + a.w * b.w ∧ Vector4.dot a b = Vector4.dot b a) ∧
    (∀ (S : Type) [CommRing S] (a b : Normal1 S),
      Normal1.dot a b = a.x * b.x ∧ Normal1.dot a b = Normal1.dot b a) ∧
    (∀ (S : Type) [CommRing S] (a b : Normal2 S),
      Normal2.dot a b = a.x * b.x + a.y * b.y ∧ Normal2.dot a b = Normal2.dot b a) ∧
    (∀ (S : Type) [CommRing S] (a b : Normal3 S),
      Normal3.dot a b = a.x * b.x + a.y * b.y + a.z * b.z ∧ Normal3.dot a b = Normal3.dot b a) ∧
    (∀ (S : Type) [CommRing S] (a b : Normal4 S),
      Normal4.dot a b = a.x * b.x + a.y * b.y + a.z * b.z + a.w * b.w ∧ Normal4.dot a b = Normal4.dot b a) := by
  refine ⟨?_, ?_, ?_, ?_, ?_, ?_, ?_, ?_⟩ <;> intro S instS a b
  · exact ⟨rfl, by simp only [Vector1.dot, Vector1.mul_element_wise, Vector1.sum]; ring⟩
  · exact ⟨rfl, by simp only [Vector2.dot, Vector2.mul_element_wise, Vector2.sum]; ring⟩
  · exact ⟨rfl, by simp only [Vector3.dot, Vector3.mul_element_wise, Vector3.sum]; ring⟩
  · exact ⟨rfl, by simp only [Vector4.dot, Vector4.mul_element_wise, Vector4.sum]; ring⟩
  · exact ⟨rfl, by simp only [Normal1.dot, Normal1.mul_element_wise, Normal1.sum]; ring⟩
  · exact ⟨rfl, by simp only [Normal2.dot, Normal2.mul_element_wise, Normal2.sum]; ring⟩
  · exact ⟨rfl, by simp only [Normal3.dot, Normal3.mul_element_wise, Normal3.sum]; ring⟩
  · exact ⟨rfl, by simp only [Normal4.dot, Normal4.mul_element_wise, Normal4.sum]; ring⟩

/-- C9: for every arity, both families, and every scalar type with the
required operators, each compound-assignment operation leaves its target
equal to the corresponding value-level operation: `+=`, `-=`, scalar `*=`,
`/=`, `%=`, and the five element-wise assign variants against
`add/sub/mul/div/rem_element_wise`. -/
theorem C9_assignment_refines_value_ops :
    (∀ (S : Type) [Add S] [Sub S] [Mul S] [Div S] [Mod S] (a b : Vector1 S) (s : S),
      Vector1.add_assign a b = Vector1.add a b ∧ Vector1.sub_assign a b = Vector1.sub a b ∧
      Vector1.mul_assign a s = Vector1.mul a s ∧ Vector1.div_assign a s = Vector1.div a s ∧
      Vector1.rem_assign a s = Vector1.rem a s ∧
      Vector1.add_assign_element_wise a b = Vector1.add_element_wise a b ∧
      Vector1.sub_assign_element_wise a b = Vector1.sub_element_wise a b ∧
      Vector1.mul_assign_element_wise a b = Vector1.mul_element_wise a b ∧
      Vector1.div_assign_element_wise a b = Vector1.div_element_wise a b ∧
      Vector1.rem_assign_element_wise a b = Vector1.rem_element_wise a b) ∧
    (∀ (S : Type) [Add S] [Sub S] [Mul S] [Div S] [Mod S] (a b : Vector2 S) (s : S),
      Vector2.add_assign a b = Vector2.add a b ∧ Vector2.sub_assign a b = Vector2.sub a b ∧
      Vector2.mul_assign a s = Vector2.mul a s ∧ Vector2.div_assign a s = Vector2.div a s ∧
      Vector2.rem_assign a s = Vector2.rem a s ∧
      Vector2.add_assign_element_wise a b = Vector2.add_element_wise a b ∧
      Vector2.sub_assign_element_wise a b = Vector2.sub_element_wise a b ∧
      Vector2.mul_assign_element_wise a b = Vector2.mul_element_wise a b ∧
      Vector2.div_assign_element_wise a b = Vector2.div_element_wise a b ∧
      Vector2.rem_assign_element_wise a b = Vector2.rem_element_wise a b) ∧
    (∀ (S : Type) [Add S] [Sub S] [Mul S] [Div S] [Mod S] (a b : Vector3 S) (s : S),
      Vector3.add_assign a b = Vector3.add a b ∧ Vector3.sub_assign a b = Vector3.sub a b ∧
      Vector3.mul_assign a s = Vector3.mul a s ∧ Vector3.div_assign a s = Vector3.div a s ∧
      Vector3.rem_assign a s = Vector3.rem a s ∧
      Vector3.add_assign_element_wise a b = Vector3.add_element_wise a b ∧
      Vector3.sub_assign_element_wise a b = Vector3.sub_element_wise a b ∧
      Vector3.mul_assign_element_wise a b = Vector3.mul_element_wise a b ∧
      Vector3.div_assign_element_wise a b = Vector3.div_element_wise a b ∧
      Vector3.rem_assign_element_wise a b = Vector3.rem_element_wise a b) ∧
    (∀ (S : Type) [Add S] [Sub S] [Mul S] [Div S] [Mod S] (a b : Vector4 S) (s : S),
      Vector4.add_assign a b = Vector4.add a b ∧ Vector4.sub_assign a b = Vector4.sub a b ∧
      Vector4.mul_assign a s = Vector4.mul a s ∧ Vector4.div_assign a s = Vector4.div a s ∧
      Vector4.rem_assign a s = Vector4.rem a s ∧
      Vector4.add_assign_element_wise a b = Vector4.add_element_wise a b ∧
      Vector4.sub_assign_element_wise a b = Vector4.sub_element_wise a b ∧
      Vector4.mul_assign_element_wise a b = Vector4.mul_element_wise a b ∧
      Vector4.div_assign_element_wise a b = Vector4.div_element_wise a b ∧
      Vector4.rem_assign_element_wise a b = Vector4.rem_element_wise a b) ∧
    (∀ (S : Type) [Add S] [Sub S] [Mul S] [Div S] [Mod S] (a b : Normal1 S) (s : S),
      Normal1.add_assign a b = Normal1.add a b ∧ Normal1.sub_assign a b = Normal1.sub a b ∧
      Normal1.mul_assign a s = Normal1.mul a s ∧ Normal1.div_assign a s = Normal1.div a s ∧
      Normal1.rem_assign a s = Normal1.rem a s ∧
      Normal1.add_assign_element_wise a b = Normal1.add_element_wise a b ∧
      Normal1.sub_assign_element_wise a b = Normal1.sub_element_wise a b ∧
      Normal1.mul_assign_element_wise a b = Normal1.mul_element_wise a b ∧
      Normal1.div_assign_element_wise a b = Normal1.div_element_wise a b ∧
      Normal1.rem_assign_element_wise a b = Normal1.rem_element_wise a b) ∧
    (∀ (S : Type) [Add S] [Sub S] [Mul S] [Div S] [Mod S] (a b : Normal2 S) (s : S),
      Normal2.add_assign a b = Normal2.add a b ∧ Normal2.sub_assign a b = Normal2.sub a b ∧
      Normal2.mul_assign a s = Normal2.mul a s ∧ Normal2.div_assign a s = Normal2.div a s ∧
      Normal2.rem_assign a s = Normal2.rem a s ∧
      Normal2.add_assign_element_wise a b = Normal2.add_element_wise a b ∧
      Normal2.sub_assign_element_wise a b = Normal2.sub_element_wise a b ∧
      Normal2.mul_assign_element_wise a b = Normal2.mul_element_wise a b ∧
      Normal2.div_assign_element_wise a b = Normal2.div_element_wise a b ∧
      Normal2.rem_assign_element_wise a b = Normal2.rem_element_wise a b) ∧
    (∀ (S : Type) [Add S] [Sub S] [Mul S] [Div S] [Mod S] (a b : Normal3 S) (s : S),
      Normal3.add_assign a b = Normal3.add a b ∧ Normal3.sub_assign a b = Normal3.sub a b ∧
      Normal3.mul_assign a s = Normal3.mul a s ∧ Normal3.div_assign a s = Normal3.div a s ∧
      Normal3.rem_assign a s = Normal3.rem a s ∧
      Normal3.add_assign_element_wise a b = Normal3.add_element_wise a b ∧
      Normal3.sub_assign_element_wise a b = Normal3.sub_element_wise a b ∧
      Normal3.mul_assign_element_wise a b = Normal3.mul_element_wise a b ∧
      Normal3.div_assign_element_wise a b = Normal3.div_element_wise a b ∧
      Normal3.rem_assign_element_wise a b = Normal3.rem_element_wise a b) ∧
    (∀ (S : Type) [Add S] [Sub S] [Mul S] [Div S] [Mod S] (a b : Normal4 S) (s : S),
      Normal4.add_assign a b = Normal4.add a b ∧ Normal4.sub_assign a b = Normal4.sub a b ∧
      Normal4.mul_assign a s = Normal4.mul a s ∧ Normal4.div_assign a s = Normal4.div a s ∧
      Normal4.rem_assign a s = Normal4.rem a s ∧
      Normal4.add_assign_element_wise a b = Normal4.add_element_wise a b ∧
      Normal4.sub_assign_element_wise a b = Normal4.sub_element_wise a b ∧
      Normal4.mul_assign_element_wise a b = Normal4.mul_element_wise a b ∧
      Normal4.div_assign_element_wise a b = Normal4.div_element_wise a b ∧
      Normal4.rem_assign_element_wise a b = Normal4.rem_element_wise a b) := by
  refine ⟨?_, ?_, ?_, ?_, ?_, ?_, ?_, ?_⟩ <;>
    (intros; exact ⟨rfl, rfl, rfl, rfl, rfl, rfl, rfl, rfl, rfl, rfl⟩)


/-- C1: the spec claims that a cross product never produces a normal type and
that `normal1.cross(normal2)` is not provided. The code, however, defines the
inherent method `Normal3::cross` taking a `Normal3` and returning a `Normal3`
(src/normal.rs lines 171-178), contradicting the code's own design comment at
src/normal.rs line 30, "Cross Product can be: V*V, V*N, N*V. (NOT N*N) Always
returns V". This theorem evaluates the code at the failing input: crossing the
normals `(1,0,0)` and `(0,1,0)` is provided and yields the `Normal3` value
`(0,0,1)`, while the three sanctioned pairings at the same components yield
`Vector3` values as the claim describes. -/
theorem C1_normal3_cross_returns_normal :
    Normal3.cross (⟨1, 0, 0⟩ : Normal3 ℤ) ⟨0, 1, 0⟩ = (⟨0, 0, 1⟩ : Normal3 ℤ) ∧
    Vector3.cross (⟨1, 0, 0⟩ : Vector3 ℤ) ⟨0, 1, 0⟩ = (⟨0, 0, 1⟩ : Vector3 ℤ) ∧
    Normal3.crossVec (⟨1, 0, 0⟩ : Normal3 ℤ) ⟨0, 1, 0⟩ = (⟨0, 0, 1⟩ : Vector3 ℤ) ∧
    Vector3.crossNormal (⟨1, 0, 0⟩ : Vector3 ℤ) ⟨0, 1, 0⟩ = (⟨0, 0, 1⟩ : Vector3 ℤ) := by
  refine ⟨by decide, by decide, by decide, by decide⟩

/-- C7: over the integer scalar ℤ the 3-component cross product satisfies
`cross a b = -cross b a` and `cross a a = 0`, and the concrete scenario
`vec3(1,0,0).cross(vec3(0,1,0)) = vec3(0,0,1)` holds. -/
theorem C7_cross_antisymmetry :
    (∀ a b : Vector3 ℤ, Vector3.cross a b = Vector3.neg (Vector3.cross b a)) ∧
    (∀ a : Vector3 ℤ, Vector3.cross a a = Vector3.zero) ∧
    Vector3.cross (⟨1, 0, 0⟩ : Vector3 ℤ) ⟨0, 1, 0⟩ = ⟨0, 0, 1⟩ := by
  refine ⟨?_, ?_, by decide⟩
  · intro a b
    simp only [Vector3.cross, Vector3.neg, Vector3.mk.injEq]
    refine ⟨by ring, by ring, by ring⟩
  · intro a
    simp only [Vector3.cross, Vector3.zero, Vector3.from_value, Vector3.mk.injEq]
    refine ⟨by ring, by ring, by ring⟩

/-- C8: every ray built by `Ray2::new(origin, direction, time)` evaluates
`at(t)` to the point `origin + direction * t`, and concretely the ray with
origin `(0,0)`, direction `(1,1)` and time `0` evaluates `at(1)` to the point
`(1,1)` (over the spec-modelled floating scalar). -/
theorem C8_ray2_at :
    (∀ (S : Type) [Add S] [Mul S] [Zero S] [FloatInf S]
      (o : Point2 S) (d : Vector2 S) (time t : S),
      (Ray2.new o d time).at t = Point2.addVec o (Vector2.mul d t)) ∧
    (Ray2.new (⟨0, 0⟩ : Point2 QInf) ⟨QInf.fin 1, QInf.fin 1⟩ 0).at (QInf.fin 1) =
      (⟨QInf.fin 1, QInf.fin 1⟩ : Point2 QInf) := by
  constructor
  · intro S instAdd instMul instZero instInf o d time t
    rfl
  · show Point2.addVec _ (Vector2.mul _ _) = _
    simp only [Ray2.new, Point2.addVec, Vector2.mul, QInf.zero_fin, QInf.fin_mul,
      QInf.fin_add, Point2.mk.injEq, QInf.fin.injEq]
    norm_num

/-- C10: `Ray2::new` and `Ray3::new` always return `min_t = 0`,
`max_t = infinity` and `depth = 0`, and `child` and `child_segment` always
return a ray whose depth is the parent's depth plus one and whose time equals
the parent's time. -/
theorem C10_ray_constructor_fields :
    (∀ (S : Type) [Zero S] [FloatInf S] (o : Point2 S) (d : Vector2 S) (time : S),
      (Ray2.new o d time).min_t = 0 ∧
      (Ray2.new o d time).max_t = FloatInf.infinity ∧
      (Ray2.new o d time).depth = 0) ∧
    (∀ (S : Type) [Zero S] [FloatInf S] (o : Point3 S) (d : Vector3 S) (time : S),
      (Ray3.new o d time).min_t = 0 ∧
      (Ray3.new o d time).max_t = FloatInf.infinity ∧
      (Ray3.new o d time).depth = 0) ∧
    (∀ (S : Type) [Zero S] [FloatInf S] (r : Ray2 S) (o : Point2 S) (d : Vector2 S),
      (Ray2.child r o d).depth = r.depth + 1 ∧ (Ray2.child r o d).time = r.time) ∧
    (∀ (S : Type) (r : Ray2 S) (o : Point2 S) (d : Vector2 S) (min_t max_t : S),
      (Ray2.child_segment r o d min_t max_t).depth = r.depth + 1 ∧
      (Ray2.child_segment r o d min_t max_t).time = r.time) ∧
    (∀ (S : Type) [Zero S] [FloatInf S] (r : Ray3 S) (o : Point3 S) (d : Vector3 S),
      (Ray3.child r o d).depth = r.depth + 1 ∧ (Ray3.child r o d).time = r.time) ∧
    (∀ (S : Type) (r : Ray3 S) (o : Point3 S) (d : Vector3 S) (min_t max_t : S),
      (Ray3.child_segment r o d min_t max_t).depth = r.depth + 1 ∧
      (Ray3.child_segment r o d min_t max_t).time = r.time) := by
  refine ⟨?_, ?_, ?_, ?_, ?_, ?_⟩ <;>
    (intros; first | exact ⟨rfl, rfl, rfl⟩ | exact ⟨rfl, rfl⟩)

end Cgmath
